import Mathlib

set_option maxRecDepth 40000
set_option maxHeartbeats 4000000
set_option linter.unusedVariables false

/- Verification of the AgroRiskFuzzy crop-failure risk system
   (src/projeto_fuzzy/fuzzy_system.py).  The repository configures a Mamdani
   fuzzy-inference engine: three antecedent linguistic variables, one
   consequent variable, piecewise-linear membership functions, a 47-rule
   table, and a crisp-score classifier.  The inference engine itself is
   supplied by an external library that is not part of the repository, so
   its generic operations (membership evaluation, clamping, rule strength,
   implication, aggregation, centroid defuzzification, degenerate-output
   handling) are modelled from the specification; all configuration data
   (membership parameters, the rule table, the classifier thresholds) is
   translated directly from the source file.  All arithmetic is exact over
   the rationals: every membership breakpoint lies on the discretization
   grid of its universe, so grid interpolation agrees with the exact
   piecewise-linear membership functions embedded here. -/

namespace AgroRisk

/-- Modelled from the spec: triangular membership function evaluation
(spec section 4.1) — zero outside the support, a linear ramp from a to b
rising 0 to 1 and a linear ramp from b to c falling 1 to 0.  The generic
evaluator lives in the external fuzzy library, not in the repository; the
parameter triples below are the source's.  All triples used have a < b < c. -/
def trimfQ (a b c x : ℚ) : ℚ :=
  if x ≤ a then 0
  else if x ≤ b then (x - a) / (b - a)
  else if x < c then (c - x) / (c - b)
  else 0

/-- Modelled from the spec: trapezoidal membership function evaluation
(spec section 4.1) — zero outside the support, ramp a to b, plateau of 1
over b to c, ramp c to d.  Degenerate a = b or c = d gives a shoulder that
is 1 at the universe edge, matching the reference library's trapmf. -/
def trapmfQ (a b c d x : ℚ) : ℚ :=
  if x < a then 0
  else if x < b then (x - a) / (b - a)
  else if x ≤ c then 1
  else if x < d then (d - x) / (d - c)
  else 0

/-- anomalia_termica term frio_prejudicial, trapmf [-15, -15, -10, -5]. -/
def frio_prejudicial (x : ℚ) : ℚ := trapmfQ (-15) (-15) (-10) (-5) x

/-- anomalia_termica term ideal, trimf [-7, 0, 7]. -/
def ideal (x : ℚ) : ℚ := trimfQ (-7) 0 7 x

/-- anomalia_termica term calor_moderado, trimf [1, 2, 3]. -/
def calor_moderado (x : ℚ) : ℚ := trimfQ 1 2 3 x

/-- anomalia_termica term calor_extremo, trapmf [11, 14, 15, 15]. -/
def calor_extremo (x : ℚ) : ℚ := trapmfQ 11 14 15 15 x

/-- deficit_hidrico term ideal_ou_excesso, trapmf [0, 0, 50, 100]. -/
def ideal_ou_excesso (x : ℚ) : ℚ := trapmfQ 0 0 50 100 x

/-- deficit_hidrico term deficit_leve, trimf [50, 100, 150]. -/
def deficit_leve (x : ℚ) : ℚ := trimfQ 50 100 150 x

/-- deficit_hidrico term deficit_moderado, trimf [100, 150, 200]. -/
def deficit_moderado (x : ℚ) : ℚ := trimfQ 100 150 200 x

/-- deficit_hidrico term seca_severa, trapmf [150, 225, 300, 300]. -/
def seca_severa (x : ℚ) : ℚ := trapmfQ 150 225 300 300 x

/-- anomalia_ndvi term muito_abaixo_media, trapmf [-0.4, -0.4, -0.25, -0.15]. -/
def muito_abaixo_media (x : ℚ) : ℚ := trapmfQ (-2/5) (-2/5) (-1/4) (-3/20) x

/-- anomalia_ndvi term abaixo_media, trimf [-0.2, -0.1, 0]. -/
def abaixo_media (x : ℚ) : ℚ := trimfQ (-1/5) (-1/10) 0 x

/-- anomalia_ndvi term na_media_ou_acima, trapmf [-0.05, 0.05, 0.4, 0.4]. -/
def na_media_ou_acima (x : ℚ) : ℚ := trapmfQ (-1/20) (1/20) (2/5) (2/5) x

/-- risco_quebra_safra term baixo, trimf [0, 15, 30]. -/
def rq_baixo (x : ℚ) : ℚ := trimfQ 0 15 30 x

/-- risco_quebra_safra term moderado, trimf [30, 47.5, 65]. -/
def rq_moderado (x : ℚ) : ℚ := trimfQ 30 (95/2) 65 x

/-- risco_quebra_safra term alto, trimf [60, 77.5, 95]. -/
def rq_alto (x : ℚ) : ℚ := trimfQ 60 (155/2) 95 x

/-- risco_quebra_safra term critico, trapmf [90, 97.5, 100, 100]. -/
def rq_critico (x : ℚ) : ℚ := trapmfQ 90 (195/2) 100 100 x

/-- The four linguistic terms of the consequent variable risco_quebra_safra. -/
inductive Consequente
  | baixo
  | moderado
  | alto
  | critico
  deriving DecidableEq, Repr

/-- Membership curve of a consequent term over the consequent universe. -/
def consequenteMf : Consequente → ℚ → ℚ
  | Consequente.baixo => rq_baixo
  | Consequente.moderado => rq_moderado
  | Consequente.alto => rq_alto
  | Consequente.critico => rq_critico

/-- Firing strength of regra_1 (spec section 4.3: AND is min, combined
left-associatively exactly as the source expression is written). -/
def regra_1 (a d n : ℚ) : ℚ := min (min (na_media_ou_acima n) (ideal_ou_excesso d)) (frio_prejudicial a)

/-- Firing strength of regra_2. -/
def regra_2 (a d n : ℚ) : ℚ := min (min (na_media_ou_acima n) (ideal_ou_excesso d)) (ideal a)

/-- Firing strength of regra_3. -/
def regra_3 (a d n : ℚ) : ℚ := min (min (na_media_ou_acima n) (ideal_ou_excesso d)) (calor_moderado a)

/-- Firing strength of regra_4. -/
def regra_4 (a d n : ℚ) : ℚ := min (min (na_media_ou_acima n) (ideal_ou_excesso d)) (calor_extremo a)

/-- Firing strength of regra_5. -/
def regra_5 (a d n : ℚ) : ℚ := min (min (na_media_ou_acima n) (deficit_leve d)) (frio_prejudicial a)

/-- Firing strength of regra_6. -/
def regra_6 (a d n : ℚ) : ℚ := min (min (na_media_ou_acima n) (deficit_leve d)) (ideal a)

/-- Firing strength of regra_7. -/
def regra_7 (a d n : ℚ) : ℚ := min (min (na_media_ou_acima n) (deficit_leve d)) (calor_moderado a)

/-- Firing strength of regra_8. -/
def regra_8 (a d n : ℚ) : ℚ := min (min (na_media_ou_acima n) (deficit_leve d)) (calor_extremo a)

/-- Firing strength of regra_9. -/
def regra_9 (a d n : ℚ) : ℚ := min (min (na_media_ou_acima n) (deficit_moderado d)) (frio_prejudicial a)

/-- Firing strength of regra_10. -/
def regra_10 (a d n : ℚ) : ℚ := min (min (na_media_ou_acima n) (deficit_moderado d)) (ideal a)

/-- Firing strength of regra_11. -/
def regra_11 (a d n : ℚ) : ℚ := min (min (na_media_ou_acima n) (deficit_moderado d)) (calor_moderado a)

/-- Firing strength of regra_12. -/
def regra_12 (a d n : ℚ) : ℚ := min (min (na_media_ou_acima n) (deficit_moderado d)) (calor_extremo a)

/-- Firing strength of regra_13. -/
def regra_13 (a d n : ℚ) : ℚ := min (min (na_media_ou_acima n) (seca_severa d)) (frio_prejudicial a)

/-- Firing strength of regra_14. -/
def regra_14 (a d n : ℚ) : ℚ := min (min (na_media_ou_acima n) (seca_severa d)) (ideal a)

/-- Firing strength of regra_15. -/
def regra_15 (a d n : ℚ) : ℚ := min (min (na_media_ou_acima n) (seca_severa d)) (calor_moderado a)

/-- Firing strength of regra_16. -/
def regra_16 (a d n : ℚ) : ℚ := min (min (na_media_ou_acima n) (seca_severa d)) (calor_extremo a)

/-- Firing strength of regra_17. -/
def regra_17 (a d n : ℚ) : ℚ := min (min (abaixo_media n) (ideal_ou_excesso d)) (ideal a)

/-- Firing strength of regra_18. -/
def regra_18 (a d n : ℚ) : ℚ := min (min (abaixo_media n) (deficit_leve d)) (ideal a)

/-- Firing strength of regra_19. -/
def regra_19 (a d n : ℚ) : ℚ := min (min (abaixo_media n) (deficit_moderado d)) (ideal a)

/-- Firing strength of regra_20. -/
def regra_20 (a d n : ℚ) : ℚ := min (min (abaixo_media n) (seca_severa d)) (ideal a)

/-- Firing strength of regra_21. -/
def regra_21 (a d n : ℚ) : ℚ := min (min (abaixo_media n) (ideal_ou_excesso d)) (calor_moderado a)

/-- Firing strength of regra_22. -/
def regra_22 (a d n : ℚ) : ℚ := min (min (abaixo_media n) (ideal_ou_excesso d)) (calor_extremo a)

/-- Firing strength of regra_23. -/
def regra_23 (a d n : ℚ) : ℚ := min (min (abaixo_media n) (deficit_leve d)) (calor_moderado a)

/-- Firing strength of regra_24. -/
def regra_24 (a d n : ℚ) : ℚ := min (min (abaixo_media n) (deficit_leve d)) (calor_extremo a)

/-- Firing strength of regra_25. -/
def regra_25 (a d n : ℚ) : ℚ := min (min (abaixo_media n) (ideal_ou_excesso d)) (frio_prejudicial a)

/-- Firing strength of regra_26. -/
def regra_26 (a d n : ℚ) : ℚ := min (min (abaixo_media n) (deficit_leve d)) (frio_prejudicial a)

/-- Firing strength of regra_27. -/
def regra_27 (a d n : ℚ) : ℚ := min (min (muito_abaixo_media n) (ideal_ou_excesso d)) (ideal a)

/-- Firing strength of regra_28. -/
def regra_28 (a d n : ℚ) : ℚ := min (min (muito_abaixo_media n) (deficit_leve d)) (ideal a)

/-- Firing strength of regra_29. -/
def regra_29 (a d n : ℚ) : ℚ := min (min (muito_abaixo_media n) (deficit_moderado d)) (ideal a)

/-- Firing strength of regra_30. -/
def regra_30 (a d n : ℚ) : ℚ := min (min (muito_abaixo_media n) (seca_severa d)) (ideal a)

/-- Firing strength of regra_31. -/
def regra_31 (a d n : ℚ) : ℚ := min (min (muito_abaixo_media n) (ideal_ou_excesso d)) (calor_extremo a)

/-- Firing strength of regra_32. -/
def regra_32 (a d n : ℚ) : ℚ := min (min (muito_abaixo_media n) (deficit_leve d)) (calor_extremo a)

/-- Firing strength of regra_33. -/
def regra_33 (a d n : ℚ) : ℚ := min (min (muito_abaixo_media n) (deficit_moderado d)) (calor_extremo a)

/-- Firing strength of regra_34. -/
def regra_34 (a d n : ℚ) : ℚ := min (min (muito_abaixo_media n) (seca_severa d)) (calor_extremo a)

/-- Firing strength of regra_35. -/
def regra_35 (a d n : ℚ) : ℚ := min (min (muito_abaixo_media n) (ideal_ou_excesso d)) (calor_moderado a)

/-- Firing strength of regra_36. -/
def regra_36 (a d n : ℚ) : ℚ := min (min (muito_abaixo_media n) (deficit_leve d)) (calor_moderado a)

/-- Firing strength of regra_37. -/
def regra_37 (a d n : ℚ) : ℚ := min (min (muito_abaixo_media n) (deficit_moderado d)) (calor_moderado a)

/-- Firing strength of regra_38. -/
def regra_38 (a d n : ℚ) : ℚ := min (min (muito_abaixo_media n) (seca_severa d)) (calor_moderado a)

/-- Firing strength of regra_39. -/
def regra_39 (a d n : ℚ) : ℚ := min (min (muito_abaixo_media n) (ideal_ou_excesso d)) (frio_prejudicial a)

/-- Firing strength of regra_40. -/
def regra_40 (a d n : ℚ) : ℚ := min (min (muito_abaixo_media n) (deficit_leve d)) (frio_prejudicial a)

/-- Firing strength of regra_41. -/
def regra_41 (a d n : ℚ) : ℚ := min (min (muito_abaixo_media n) (deficit_moderado d)) (frio_prejudicial a)

/-- Firing strength of regra_42. -/
def regra_42 (a d n : ℚ) : ℚ := min (min (muito_abaixo_media n) (seca_severa d)) (frio_prejudicial a)

/-- Firing strength of regra_43 (fallback: calor_extremo AND seca_severa). -/
def regra_43 (a d n : ℚ) : ℚ := min (calor_extremo a) (seca_severa d)

/-- Firing strength of regra_44 (fallback: frio_prejudicial AND seca_severa). -/
def regra_44 (a d n : ℚ) : ℚ := min (frio_prejudicial a) (seca_severa d)

/-- Firing strength of regra_45 (fallback: seca_severa alone). -/
def regra_45 (a d n : ℚ) : ℚ := seca_severa d

/-- Firing strength of regra_46 (fallback: muito_abaixo_media alone). -/
def regra_46 (a d n : ℚ) : ℚ := muito_abaixo_media n

/-- Firing strength of regra_47 (ideal AND ideal_ou_excesso AND na_media_ou_acima). -/
def regra_47 (a d n : ℚ) : ℚ := min (min (ideal a) (ideal_ou_excesso d)) (na_media_ou_acima n)

/-- The 47-rule table of AgroRiskFuzzy._definir_regras, in source order.
Each entry is the rule's firing strength at the (already clamped) crisp
inputs paired with its consequent term. -/
def regras (a d n : ℚ) : List (ℚ × Consequente) :=
  [ (regra_1 a d n, Consequente.moderado),
    (regra_2 a d n, Consequente.baixo),
    (regra_3 a d n, Consequente.baixo),
    (regra_4 a d n, Consequente.moderado),
    (regra_5 a d n, Consequente.moderado),
    (regra_6 a d n, Consequente.baixo),
    (regra_7 a d n, Consequente.moderado),
    (regra_8 a d n, Consequente.alto),
    (regra_9 a d n, Consequente.alto),
    (regra_10 a d n, Consequente.moderado),
    (regra_11 a d n, Consequente.alto),
    (regra_12 a d n, Consequente.critico),
    (regra_13 a d n, Consequente.alto),
    (regra_14 a d n, Consequente.alto),
    (regra_15 a d n, Consequente.critico),
    (regra_16 a d n, Consequente.critico),
    (regra_17 a d n, Consequente.moderado),
    (regra_18 a d n, Consequente.alto),
    (regra_19 a d n, Consequente.alto),
    (regra_20 a d n, Consequente.critico),
    (regra_21 a d n, Consequente.alto),
    (regra_22 a d n, Consequente.alto),
    (regra_23 a d n, Consequente.alto),
    (regra_24 a d n, Consequente.critico),
    (regra_25 a d n, Consequente.alto),
    (regra_26 a d n, Consequente.alto),
    (regra_27 a d n, Consequente.alto),
    (regra_28 a d n, Consequente.alto),
    (regra_29 a d n, Consequente.critico),
    (regra_30 a d n, Consequente.critico),
    (regra_31 a d n, Consequente.critico),
    (regra_32 a d n, Consequente.critico),
    (regra_33 a d n, Consequente.critico),
    (regra_34 a d n, Consequente.critico),
    (regra_35 a d n, Consequente.alto),
    (regra_36 a d n, Consequente.critico),
    (regra_37 a d n, Consequente.critico),
    (regra_38 a d n, Consequente.critico),
    (regra_39 a d n, Consequente.alto),
    (regra_40 a d n, Consequente.alto),
    (regra_41 a d n, Consequente.critico),
    (regra_42 a d n, Consequente.critico),
    (regra_43 a d n, Consequente.critico),
    (regra_44 a d n, Consequente.alto),
    (regra_45 a d n, Consequente.alto),
    (regra_46 a d n, Consequente.alto),
    (regra_47 a d n, Consequente.baixo) ]

/-- Modelled from the spec: aggregated output membership at a sample point x
of the consequent universe — the pointwise max over all rules of the rule's
consequent curve clipped (min) at the rule's firing strength
(spec section 4.4, steps 4 and 5).  The inputs are already clamped. -/
def muQ (a d n : ℚ) (x : ℚ) : ℚ :=
  ((regras a d n).map (fun r => min r.1 (consequenteMf r.2 x))).foldr max 0

/-- Modelled from the spec: total aggregated membership mass over the
discretized consequent universe 0, 1, ..., 100 (step 1). -/
def massQ (a d n : ℚ) : ℚ :=
  ∑ i ∈ Finset.range 101, muQ a d n (i : ℚ)

/-- Modelled from the spec: out-of-range crisp inputs are silently clamped
to the universe bounds before fuzzification (spec sections 4.2 and 7). -/
def clampQ (lo hi x : ℚ) : ℚ := max lo (min hi x)

/-- AgroRiskFuzzy.simular.  The source forwards the three crisp inputs to
the external engine and returns the defuzzified score.  Modelled from the
spec: clamp each input into its universe, fuzzify, fire all 47 rules,
aggregate by pointwise max, and defuzzify by the discrete centroid
sum of x * mu(x) over sum of mu(x) on the consequent universe 0..100
(spec section 4.4).  When the total aggregated mass is zero the engine
signals a recoverable no-rule-matched condition to the caller
(spec section 7, degenerate-output option (b)). -/
def simular (a d n : ℚ) : Except String ℚ :=
  let ac := clampQ (-15) 15 a
  let dc := clampQ 0 300 d
  let nc := clampQ (-2/5) (2/5) n
  if massQ ac dc nc = 0 then Except.error "no rule matched"
  else Except.ok ((∑ i ∈ Finset.range 101, (i : ℚ) * muQ ac dc nc (i : ℚ)) / massQ ac dc nc)

/-- AgroRiskFuzzy.categorizar, translated directly from the source:
risco < 30 gives baixo, risco < 60 gives moderado, risco < 90 gives alto,
anything else gives critico (the source spells the last label with an
accent). -/
def categorizar (risco : ℚ) : String :=
  if risco < 30 then "baixo"
  else if risco < 60 then "moderado"
  else if risco < 90 then "alto"
  else "crítico"

/-- Position of a category label in the risk order baixo < moderado <
alto < critico. -/
def catIdx (s : String) : ℕ :=
  if s = "baixo" then 0
  else if s = "moderado" then 1
  else if s = "alto" then 2
  else 3

/-- Largest firing strength over the whole rule table. -/
def maxStrength (a d n : ℚ) : ℚ :=
  ((regras a d n).map Prod.fst).foldr max 0

/-- Combined activation of the consequent term baixo: the max of the firing
strengths of the rules whose consequent is baixo (rules 2, 3, 6, 47). -/
def actB (a d n : ℚ) : ℚ :=
  max (regra_2 a d n) (max (regra_3 a d n) (max (regra_6 a d n) (regra_47 a d n)))

/-- Combined activation of the consequent term moderado
(rules 1, 4, 5, 7, 10, 17). -/
def actM (a d n : ℚ) : ℚ :=
  max (regra_1 a d n) (max (regra_4 a d n) (max (regra_5 a d n)
    (max (regra_7 a d n) (max (regra_10 a d n) (regra_17 a d n)))))

/-- Combined activation of the consequent term alto
(rules 8, 9, 11, 13, 14, 18, 19, 21, 22, 23, 25, 26, 27, 28, 35, 39, 40,
44, 45, 46). -/
def actA (a d n : ℚ) : ℚ :=
  max (regra_8 a d n) (max (regra_9 a d n) (max (regra_11 a d n)
    (max (regra_13 a d n) (max (regra_14 a d n) (max (regra_18 a d n)
    (max (regra_19 a d n) (max (regra_21 a d n) (max (regra_22 a d n)
    (max (regra_23 a d n) (max (regra_25 a d n) (max (regra_26 a d n)
    (max (regra_27 a d n) (max (regra_28 a d n) (max (regra_35 a d n)
    (max (regra_39 a d n) (max (regra_40 a d n) (max (regra_44 a d n)
    (max (regra_45 a d n) (regra_46 a d n)))))))))))))))))))

/-- Combined activation of the consequent term critico
(rules 12, 15, 16, 20, 24, 29, 30, 31, 32, 33, 34, 36, 37, 38, 41, 42, 43). -/
def actC (a d n : ℚ) : ℚ :=
  max (regra_12 a d n) (max (regra_15 a d n) (max (regra_16 a d n)
    (max (regra_20 a d n) (max (regra_24 a d n) (max (regra_29 a d n)
    (max (regra_30 a d n) (max (regra_31 a d n) (max (regra_32 a d n)
    (max (regra_33 a d n) (max (regra_34 a d n) (max (regra_36 a d n)
    (max (regra_37 a d n) (max (regra_38 a d n) (max (regra_41 a d n)
    (max (regra_42 a d n) (regra_43 a d n))))))))))))))))

/-- Aggregated output membership at a sample point x, written in terms of
the four per-term activations: each consequent curve is clipped at its
term's combined activation and the four clipped curves are max-combined. -/
def aggAt (b m h c : ℚ) (x : ℚ) : ℚ :=
  max (min b (rq_baixo x))
    (max (min m (rq_moderado x))
      (max (min h (rq_alto x)) (min c (rq_critico x))))

/-- Total aggregated mass over the consequent universe, as a function of
the four per-term activations. -/
def massOf (b m h c : ℚ) : ℚ :=
  ∑ i ∈ Finset.range 101, aggAt b m h c (i : ℚ)

/-- First moment of the aggregated curve over the consequent universe, as
a function of the four per-term activations. -/
def momentOf (b m h c : ℚ) : ℚ :=
  ∑ i ∈ Finset.range 101, (i : ℚ) * aggAt b m h c (i : ℚ)

/-- Crisp score of the system along the monotonicity test line: thermal
anomaly fixed at its fully ideal value 0 and ndvi anomaly fixed anywhere on
the plateau of na_media_ou_acima, as a function of the water deficit d.
On that line the only activations are baixo from rules 2, 6 and 47
(max of ideal_ou_excesso and deficit_leve), moderado from rule 10
(deficit_moderado) and alto from rules 14 and 45 (seca_severa). -/
def scoreC8 (d : ℚ) : ℚ :=
  momentOf (max (ideal_ou_excesso d) (deficit_leve d)) (deficit_moderado d) (seca_severa d) 0 /
    massOf (max (ideal_ou_excesso d) (deficit_leve d)) (deficit_moderado d) (seca_severa d) 0

theorem trimfQ_nonneg {a b c : ℚ} (x : ℚ) : 0 ≤ trimfQ a b c x := by
  unfold trimfQ
  split_ifs with h1 h2 h3 <;> try norm_num
  · exact div_nonneg (by linarith) (by linarith)
  · exact div_nonneg (by linarith) (by linarith)

theorem trapmfQ_nonneg {a b c d : ℚ} (x : ℚ) : 0 ≤ trapmfQ a b c d x := by
  unfold trapmfQ
  split_ifs with h1 h2 h3 h4 <;> try norm_num
  · exact div_nonneg (by linarith) (by linarith)
  · exact div_nonneg (by linarith) (by linarith)

theorem trimfQ_le_one {a b c : ℚ} (x : ℚ) : trimfQ a b c x ≤ 1 := by
  unfold trimfQ
  split_ifs with h1 h2 h3 <;> try norm_num
  · rw [div_le_one (by linarith)]; linarith
  · rw [div_le_one (by linarith)]; linarith

theorem trapmfQ_le_one {a b c d : ℚ} (x : ℚ) : trapmfQ a b c d x ≤ 1 := by
  unfold trapmfQ
  split_ifs with h1 h2 h3 h4 <;> try norm_num
  · rw [div_le_one (by linarith)]; linarith
  · rw [div_le_one (by linarith)]; linarith

theorem trimfQ_zero_left {a b c x : ℚ} (h : x ≤ a) : trimfQ a b c x = 0 := by
  unfold trimfQ
  rw [if_pos h]

theorem trimfQ_zero_right {a b c x : ℚ} (hbc : b < c) (h : c ≤ x) : trimfQ a b c x = 0 := by
  unfold trimfQ
  split_ifs with h1 h2 h3 <;> first | rfl | (exfalso; linarith)

theorem trapmfQ_zero_left {a b c d x : ℚ} (h : x < a) : trapmfQ a b c d x = 0 := by
  unfold trapmfQ
  rw [if_pos h]

theorem trapmfQ_zero_right {a b c d x : ℚ} (hab : a ≤ b) (hbc : b ≤ c) (hcd : c < d)
    (h : d ≤ x) : trapmfQ a b c d x = 0 := by
  unfold trapmfQ
  split_ifs with h1 h2 h3 h4 <;> first | rfl | (exfalso; linarith)

theorem trimfQ_reflect {a b c : ℚ} (hab : a < b) (hbc : b < c) (hsym : b - a = c - b)
    (x : ℚ) : trimfQ a b c (a + c - x) = trimfQ a b c x := by
  unfold trimfQ
  split_ifs with h1 h2 h3 h4 h5 h6 h7 h8 h9 h10 h11 h12 <;>
    first
      | rfl
      | (exfalso; linarith)
      | (have hx : x = b := by linarith
         rw [hx, show b - a = c - b from hsym]
         ring_nf
         done)
      | (rw [show b - a = c - b from hsym]; ring_nf; done)

theorem frio_prejudicial_nonneg (x : ℚ) : 0 ≤ frio_prejudicial x := trapmfQ_nonneg x

theorem ideal_nonneg (x : ℚ) : 0 ≤ ideal x := trimfQ_nonneg x

theorem calor_moderado_nonneg (x : ℚ) : 0 ≤ calor_moderado x := trimfQ_nonneg x

theorem calor_extremo_nonneg (x : ℚ) : 0 ≤ calor_extremo x := trapmfQ_nonneg x

theorem ideal_ou_excesso_nonneg (x : ℚ) : 0 ≤ ideal_ou_excesso x := trapmfQ_nonneg x

theorem deficit_leve_nonneg (x : ℚ) : 0 ≤ deficit_leve x := trimfQ_nonneg x

theorem deficit_moderado_nonneg (x : ℚ) : 0 ≤ deficit_moderado x := trimfQ_nonneg x

theorem seca_severa_nonneg (x : ℚ) : 0 ≤ seca_severa x := trapmfQ_nonneg x

theorem muito_abaixo_media_nonneg (x : ℚ) : 0 ≤ muito_abaixo_media x := trapmfQ_nonneg x

theorem abaixo_media_nonneg (x : ℚ) : 0 ≤ abaixo_media x := trimfQ_nonneg x

theorem na_media_ou_acima_nonneg (x : ℚ) : 0 ≤ na_media_ou_acima x := trapmfQ_nonneg x

theorem rq_baixo_nonneg (x : ℚ) : 0 ≤ rq_baixo x := trimfQ_nonneg x

theorem rq_moderado_nonneg (x : ℚ) : 0 ≤ rq_moderado x := trimfQ_nonneg x

theorem rq_alto_nonneg (x : ℚ) : 0 ≤ rq_alto x := trimfQ_nonneg x

theorem rq_critico_nonneg (x : ℚ) : 0 ≤ rq_critico x := trapmfQ_nonneg x

theorem ideal_ou_excesso_le_one (x : ℚ) : ideal_ou_excesso x ≤ 1 := trapmfQ_le_one x

theorem deficit_leve_le_one (x : ℚ) : deficit_leve x ≤ 1 := trimfQ_le_one x

theorem deficit_moderado_le_one (x : ℚ) : deficit_moderado x ≤ 1 := trimfQ_le_one x

theorem seca_severa_le_one (x : ℚ) : seca_severa x ≤ 1 := trapmfQ_le_one x

theorem le_foldr_max {x : ℚ} {l : List ℚ} (h : x ∈ l) : x ≤ l.foldr max 0 := by
  induction l with
  | nil => cases h
  | cons y l ih =>
      rcases List.mem_cons.mp h with rfl | h2
      · exact le_max_left _ _
      · exact le_trans (ih h2) (le_max_right _ _)

theorem foldr_max_nonneg (l : List ℚ) : 0 ≤ l.foldr max 0 := by
  induction l with
  | nil => exact le_refl 0
  | cons y l ih => exact le_trans ih (le_max_right _ _)

theorem foldr_max_le {l : List ℚ} {b : ℚ} (hb : 0 ≤ b) (h : ∀ x ∈ l, x ≤ b) :
    l.foldr max 0 ≤ b := by
  induction l with
  | nil => exact hb
  | cons y l ih =>
      exact max_le (h y (List.mem_cons_self y l)) (ih fun x hx => h x (List.mem_cons_of_mem y hx))

theorem clampQ_eq_self {lo hi x : ℚ} (h1 : lo ≤ x) (h2 : x ≤ hi) : clampQ lo hi x = x := by
  unfold clampQ
  rw [min_eq_right h2, max_eq_right h1]

theorem clampQ_mem_low (lo hi x : ℚ) : lo ≤ clampQ lo hi x := le_max_left _ _

theorem clampQ_mem_high {lo hi : ℚ} (h : lo ≤ hi) (x : ℚ) : clampQ lo hi x ≤ hi :=
  max_le h (min_le_left _ _)

theorem clampQ_idem {lo hi : ℚ} (h : lo ≤ hi) (x : ℚ) :
    clampQ lo hi (clampQ lo hi x) = clampQ lo hi x :=
  clampQ_eq_self (clampQ_mem_low lo hi x) (clampQ_mem_high h x)

theorem muQ_eq (a d n x : ℚ) :
    muQ a d n x = aggAt (actB a d n) (actM a d n) (actA a d n) (actC a d n) x := by
  have h0 : max (min (regra_47 a d n) (rq_baixo x)) 0 = min (regra_47 a d n) (rq_baixo x) := by
    apply max_eq_left
    exact le_min (le_min (le_min (ideal_nonneg a) (ideal_ou_excesso_nonneg d))
      (na_media_ou_acima_nonneg n)) (rq_baixo_nonneg x)
  simp only [muQ, regras, List.map_cons, List.map_nil, List.foldr_cons, List.foldr_nil,
    consequenteMf, aggAt, actB, actM, actA, actC, min_max_distrib_right, h0]
  ac_rfl

theorem massQ_eq (a d n : ℚ) :
    massQ a d n = massOf (actB a d n) (actM a d n) (actA a d n) (actC a d n) := by
  unfold massQ massOf
  exact Finset.sum_congr rfl fun i _ => by rw [muQ_eq]

theorem moment_sum_eq (a d n : ℚ) :
    ∑ i ∈ Finset.range 101, (i : ℚ) * muQ a d n (i : ℚ) =
      momentOf (actB a d n) (actM a d n) (actA a d n) (actC a d n) := by
  unfold momentOf
  exact Finset.sum_congr rfl fun i _ => by rw [muQ_eq]

theorem simular_ok {a d n : ℚ} (ha1 : -15 ≤ a) (ha2 : a ≤ 15) (hd1 : 0 ≤ d)
    (hd2 : d ≤ 300) (hn1 : -2/5 ≤ n) (hn2 : n ≤ 2/5)
    (hmass : massOf (actB a d n) (actM a d n) (actA a d n) (actC a d n) ≠ 0) :
    simular a d n =
      Except.ok (momentOf (actB a d n) (actM a d n) (actA a d n) (actC a d n) /
        massOf (actB a d n) (actM a d n) (actA a d n) (actC a d n)) := by
  simp only [simular, clampQ_eq_self ha1 ha2, clampQ_eq_self hd1 hd2, clampQ_eq_self hn1 hn2,
    massQ_eq, moment_sum_eq]
  rw [if_neg hmass]

theorem simular_err {a d n : ℚ} (ha1 : -15 ≤ a) (ha2 : a ≤ 15) (hd1 : 0 ≤ d)
    (hd2 : d ≤ 300) (hn1 : -2/5 ≤ n) (hn2 : n ≤ 2/5)
    (hmass : massOf (actB a d n) (actM a d n) (actA a d n) (actC a d n) = 0) :
    simular a d n = Except.error "no rule matched" := by
  simp only [simular, clampQ_eq_self ha1 ha2, clampQ_eq_self hd1 hd2, clampQ_eq_self hn1 hn2,
    massQ_eq]
  rw [if_pos hmass]

theorem sum_Icc_reflect (lo hi : ℕ) (g : ℕ → ℚ) :
    ∑ i ∈ Finset.Icc lo hi, g i = ∑ i ∈ Finset.Icc lo hi, g (lo + hi - i) := by
  refine Finset.sum_nbij' (fun i => lo + hi - i) (fun i => lo + hi - i) ?_ ?_ ?_ ?_ ?_
  · intro i hi2
    dsimp only
    simp only [Finset.mem_Icc] at hi2 ⊢
    omega
  · intro i hi2
    dsimp only
    simp only [Finset.mem_Icc] at hi2 ⊢
    omega
  · intro i hi2
    dsimp only
    simp only [Finset.mem_Icc] at hi2
    omega
  · intro i hi2
    dsimp only
    simp only [Finset.mem_Icc] at hi2
    omega
  · intro i hi2
    dsimp only
    simp only [Finset.mem_Icc] at hi2
    congr 1
    omega

theorem sum_range101_restrict {lo hi : ℕ} (f : ℕ → ℚ) (hhi : hi ≤ 100)
    (hf : ∀ i : ℕ, i ≤ 100 → i < lo ∨ hi < i → f i = 0) :
    ∑ i ∈ Finset.range 101, f i = ∑ i ∈ Finset.Icc lo hi, f i := by
  refine (Finset.sum_subset ?_ ?_).symm
  · intro i hi2
    simp only [Finset.mem_Icc] at hi2
    simp only [Finset.mem_range]
    omega
  · intro i hi2 hi3
    simp only [Finset.mem_range] at hi2
    simp only [Finset.mem_Icc] at hi3
    exact hf i (by omega) (by omega)

theorem sum_centered {lo hi : ℕ} (g : ℕ → ℚ) (ctr : ℚ)
    (hctr : (lo : ℚ) + (hi : ℚ) = 2 * ctr)
    (hsymm : ∀ i ∈ Finset.Icc lo hi, g (lo + hi - i) = g i) :
    ∑ i ∈ Finset.Icc lo hi, ((i : ℚ) - ctr) * g i = 0 := by
  have h1 : ∑ i ∈ Finset.Icc lo hi, ((i : ℚ) - ctr) * g i =
      ∑ i ∈ Finset.Icc lo hi, (ctr - (i : ℚ)) * g i := by
    rw [sum_Icc_reflect lo hi (fun i => ((i : ℚ) - ctr) * g i)]
    refine Finset.sum_congr rfl ?_
    intro i hi2
    simp only [Finset.mem_Icc] at hi2
    rw [hsymm i (by simp only [Finset.mem_Icc]; omega)]
    have hcast : ((lo + hi - i : ℕ) : ℚ) = (lo : ℚ) + (hi : ℚ) - (i : ℚ) := by
      have : lo + hi - i + i = lo + hi := by omega
      have h2 := congrArg (fun k : ℕ => (k : ℚ)) this
      push_cast at h2
      linarith
    rw [hcast]
    linear_combination g i * hctr
  have h2 : ∑ i ∈ Finset.Icc lo hi, (ctr - (i : ℚ)) * g i =
      -∑ i ∈ Finset.Icc lo hi, ((i : ℚ) - ctr) * g i := by
    rw [← Finset.sum_neg_distrib]
    refine Finset.sum_congr rfl ?_
    intro i _
    ring
  linarith [h1, h2.symm.trans h1.symm]

theorem clip_moment {lo hi : ℕ} {P : ℚ → ℚ} {c ctr : ℚ} (hc : 0 ≤ c) (hhi : hi ≤ 100)
    (hctr : (lo : ℚ) + (hi : ℚ) = 2 * ctr)
    (hvan : ∀ i : ℕ, i ≤ 100 → i < lo ∨ hi < i → P (i : ℚ) = 0)
    (hsymm : ∀ i : ℕ, lo ≤ i → i ≤ hi → P ((lo + hi - i : ℕ) : ℚ) = P (i : ℚ)) :
    ∑ i ∈ Finset.range 101, (i : ℚ) * min c (P (i : ℚ)) =
      ctr * ∑ i ∈ Finset.range 101, min c (P (i : ℚ)) := by
  have hz : ∀ i : ℕ, i ≤ 100 → i < lo ∨ hi < i → min c (P (i : ℚ)) = 0 := by
    intro i h1 h2
    rw [hvan i h1 h2, min_eq_right hc]
  have key : ∑ i ∈ Finset.Icc lo hi, ((i : ℚ) - ctr) * min c (P (i : ℚ)) = 0 := by
    refine sum_centered _ ctr hctr ?_
    intro i hi2
    simp only [Finset.mem_Icc] at hi2
    rw [hsymm i hi2.1 hi2.2]
  have expand : ∑ i ∈ Finset.Icc lo hi, ((i : ℚ) - ctr) * min c (P (i : ℚ)) =
      (∑ i ∈ Finset.Icc lo hi, (i : ℚ) * min c (P (i : ℚ))) -
        ctr * ∑ i ∈ Finset.Icc lo hi, min c (P (i : ℚ)) := by
    rw [Finset.mul_sum, ← Finset.sum_sub_distrib]
    refine Finset.sum_congr rfl ?_
    intro i _
    ring
  rw [sum_range101_restrict (fun i => (i : ℚ) * min c (P (i : ℚ))) hhi
      (fun i h1 h2 => by dsimp only; rw [hz i h1 h2, mul_zero]),
    sum_range101_restrict (fun i => min c (P (i : ℚ))) hhi hz]
  have := expand ▸ key
  linarith

theorem rq_baixo_zero_right {x : ℚ} (h : 30 ≤ x) : rq_baixo x = 0 :=
  trimfQ_zero_right (by norm_num) h

theorem rq_baixo_zero_left {x : ℚ} (h : x ≤ 0) : rq_baixo x = 0 :=
  trimfQ_zero_left h

theorem rq_moderado_zero_left {x : ℚ} (h : x ≤ 30) : rq_moderado x = 0 :=
  trimfQ_zero_left h

theorem rq_moderado_zero_right {x : ℚ} (h : 65 ≤ x) : rq_moderado x = 0 :=
  trimfQ_zero_right (by norm_num) h

theorem rq_alto_zero_left {x : ℚ} (h : x ≤ 60) : rq_alto x = 0 :=
  trimfQ_zero_left h

theorem rq_alto_zero_right {x : ℚ} (h : 95 ≤ x) : rq_alto x = 0 :=
  trimfQ_zero_right (by norm_num) h

theorem rq_critico_zero_left {x : ℚ} (h : x < 90) : rq_critico x = 0 :=
  trapmfQ_zero_left h

theorem cast_nat_sub {k i : ℕ} (h : i ≤ k) : ((k - i : ℕ) : ℚ) = (k : ℚ) - (i : ℚ) := by
  have h2 := congrArg (fun m : ℕ => (m : ℚ)) (Nat.sub_add_cancel h)
  push_cast at h2
  linarith

theorem baixo_clip_moment {c : ℚ} (hc : 0 ≤ c) :
    ∑ i ∈ Finset.range 101, (i : ℚ) * min c (rq_baixo (i : ℚ)) =
      15 * ∑ i ∈ Finset.range 101, min c (rq_baixo (i : ℚ)) := by
  refine @clip_moment 0 30 rq_baixo c 15 hc (by norm_num) (by norm_num) ?_ ?_
  · intro i h1 h2
    rcases h2 with h2 | h2
    · omega
    · refine rq_baixo_zero_right ?_
      have : (30 : ℚ) < (i : ℚ) := by exact_mod_cast h2
      linarith
  · intro i h1 h2
    rw [show (0 + 30 - i : ℕ) = 30 - i from by omega, cast_nat_sub h2]
    unfold rq_baixo
    push_cast
    rw [show (30 : ℚ) - (i : ℚ) = 0 + 30 - (i : ℚ) from by ring]
    exact trimfQ_reflect (by norm_num) (by norm_num) (by norm_num) (i : ℚ)

theorem moderado_clip_moment {c : ℚ} (hc : 0 ≤ c) :
    ∑ i ∈ Finset.range 101, (i : ℚ) * min c (rq_moderado (i : ℚ)) =
      (95 / 2) * ∑ i ∈ Finset.range 101, min c (rq_moderado (i : ℚ)) := by
  refine @clip_moment 30 65 rq_moderado c (95 / 2) hc (by norm_num) (by norm_num) ?_ ?_
  · intro i h1 h2
    rcases h2 with h2 | h2
    · refine rq_moderado_zero_left ?_
      have : (i : ℚ) < (30 : ℚ) := by exact_mod_cast h2
      linarith
    · refine rq_moderado_zero_right ?_
      have : (65 : ℚ) < (i : ℚ) := by exact_mod_cast h2
      linarith
  · intro i h1 h2
    rw [show (30 + 65 - i : ℕ) = 95 - i from by omega, cast_nat_sub (by omega : i ≤ 95)]
    unfold rq_moderado
    push_cast
    rw [show (95 : ℚ) - (i : ℚ) = 30 + 65 - (i : ℚ) from by ring]
    exact trimfQ_reflect (by norm_num) (by norm_num) (by norm_num) (i : ℚ)

theorem alto_clip_moment {c : ℚ} (hc : 0 ≤ c) :
    ∑ i ∈ Finset.range 101, (i : ℚ) * min c (rq_alto (i : ℚ)) =
      (155 / 2) * ∑ i ∈ Finset.range 101, min c (rq_alto (i : ℚ)) := by
  refine @clip_moment 60 95 rq_alto c (155 / 2) hc (by norm_num) (by norm_num) ?_ ?_
  · intro i h1 h2
    rcases h2 with h2 | h2
    · refine rq_alto_zero_left ?_
      have : (i : ℚ) < (60 : ℚ) := by exact_mod_cast h2
      linarith
    · refine rq_alto_zero_right ?_
      have : (95 : ℚ) < (i : ℚ) := by exact_mod_cast h2
      linarith
  · intro i h1 h2
    rw [show (60 + 95 - i : ℕ) = 155 - i from by omega, cast_nat_sub (by omega : i ≤ 155)]
    unfold rq_alto
    push_cast
    rw [show (155 : ℚ) - (i : ℚ) = 60 + 95 - (i : ℚ) from by ring]
    exact trimfQ_reflect (by norm_num) (by norm_num) (by norm_num) (i : ℚ)

theorem aggAt_nonneg {b m h c : ℚ} (hb : 0 ≤ b) (x : ℚ) : 0 ≤ aggAt b m h c x :=
  le_trans (le_min hb (rq_baixo_nonneg x)) (le_max_left _ _)

theorem aggAt_bm {b m : ℚ} (hm : 0 ≤ m) (x : ℚ) :
    aggAt b m 0 0 x = max (min b (rq_baixo x)) (min m (rq_moderado x)) := by
  unfold aggAt
  rw [min_eq_left (rq_alto_nonneg x), min_eq_left (rq_critico_nonneg x), max_self,
    max_eq_left (le_min hm (rq_moderado_nonneg x))]

theorem aggAt_mh {m h : ℚ} (hh : 0 ≤ h) (x : ℚ) :
    aggAt 0 m h 0 x = max (min m (rq_moderado x)) (min h (rq_alto x)) := by
  unfold aggAt
  rw [min_eq_left (rq_baixo_nonneg x), min_eq_left (rq_critico_nonneg x),
    max_eq_left (le_min hh (rq_alto_nonneg x))]
  exact max_eq_right (le_trans (le_min hh (rq_alto_nonneg x)) (le_max_right _ _))

theorem aggAt_zero (x : ℚ) : aggAt 0 0 0 0 x = 0 := by
  unfold aggAt
  rw [min_eq_left (rq_baixo_nonneg x), min_eq_left (rq_moderado_nonneg x),
    min_eq_left (rq_alto_nonneg x), min_eq_left (rq_critico_nonneg x), max_self, max_self,
    max_self]

theorem aggAt_bm_split {b m : ℚ} (hb : 0 ≤ b) (hm : 0 ≤ m) (i : ℕ) :
    aggAt b m 0 0 (i : ℚ) = min b (rq_baixo (i : ℚ)) + min m (rq_moderado (i : ℚ)) := by
  rw [aggAt_bm hm]
  rcases le_or_lt i 30 with h | h
  · have hM : rq_moderado (i : ℚ) = 0 := rq_moderado_zero_left (by exact_mod_cast h)
    rw [hM, min_eq_right hm, max_eq_left (le_min hb (rq_baixo_nonneg _)), add_zero]
  · have hB : rq_baixo (i : ℚ) = 0 := by
      refine rq_baixo_zero_right ?_
      have : (30 : ℚ) < (i : ℚ) := by exact_mod_cast h
      linarith
    rw [hB, min_eq_right hb, max_eq_right (le_min hm (rq_moderado_nonneg _)), zero_add]

theorem massOf_bm {b m : ℚ} (hb : 0 ≤ b) (hm : 0 ≤ m) :
    massOf b m 0 0 = (∑ i ∈ Finset.range 101, min b (rq_baixo (i : ℚ))) +
      ∑ i ∈ Finset.range 101, min m (rq_moderado (i : ℚ)) := by
  unfold massOf
  rw [← Finset.sum_add_distrib]
  exact Finset.sum_congr rfl fun i _ => aggAt_bm_split hb hm i

theorem momentOf_bm {b m : ℚ} (hb : 0 ≤ b) (hm : 0 ≤ m) :
    momentOf b m 0 0 = 15 * (∑ i ∈ Finset.range 101, min b (rq_baixo (i : ℚ))) +
      (95 / 2) * ∑ i ∈ Finset.range 101, min m (rq_moderado (i : ℚ)) := by
  unfold momentOf
  rw [← baixo_clip_moment hb, ← moderado_clip_moment hm, ← Finset.sum_add_distrib]
  refine Finset.sum_congr rfl fun i _ => ?_
  rw [aggAt_bm_split hb hm i, mul_add]

theorem clipSum_nonneg {c : ℚ} (hc : 0 ≤ c) (P : ℚ → ℚ) (hP : ∀ x : ℚ, 0 ≤ P x) :
    0 ≤ ∑ i ∈ Finset.range 101, min c (P (i : ℚ)) :=
  Finset.sum_nonneg fun i _ => le_min hc (hP _)

theorem clipSum_mono {c1 c2 : ℚ} (h : c1 ≤ c2) (P : ℚ → ℚ) :
    (∑ i ∈ Finset.range 101, min c1 (P (i : ℚ))) ≤
      ∑ i ∈ Finset.range 101, min c2 (P (i : ℚ)) :=
  Finset.sum_le_sum fun i _ => min_le_min h (le_refl _)

theorem ideal_at_zero : ideal 0 = 1 := by norm_num [ideal, trimfQ]

theorem frio_at_zero : frio_prejudicial 0 = 0 := by norm_num [frio_prejudicial, trapmfQ]

theorem calor_moderado_at_zero : calor_moderado 0 = 0 := by
  norm_num [calor_moderado, trimfQ]

theorem calor_extremo_at_zero : calor_extremo 0 = 0 := by
  norm_num [calor_extremo, trapmfQ]

theorem na_plateau {n : ℚ} (h1 : 1/20 ≤ n) (h2 : n ≤ 2/5) : na_media_ou_acima n = 1 := by
  unfold na_media_ou_acima trapmfQ
  rw [if_neg (by linarith), if_neg (by linarith), if_pos (by linarith)]

theorem abaixo_plateau {n : ℚ} (h1 : 1/20 ≤ n) : abaixo_media n = 0 := by
  unfold abaixo_media trimfQ
  rw [if_neg (by linarith), if_neg (by linarith), if_neg (by linarith)]

theorem muito_plateau {n : ℚ} (h1 : 1/20 ≤ n) : muito_abaixo_media n = 0 := by
  unfold muito_abaixo_media trapmfQ
  rw [if_neg (by linarith), if_neg (by linarith), if_neg (by linarith), if_neg (by linarith)]

theorem min11 {x : ℚ} (h1 : x ≤ 1) : min (min 1 x) 1 = x := by
  rw [min_eq_right h1, min_eq_left h1]

theorem min10 {x : ℚ} (h0 : 0 ≤ x) : min (min 1 x) 0 = 0 :=
  min_eq_right (le_min zero_le_one h0)

theorem min0any {x y : ℚ} (h0 : 0 ≤ x) (hy : 0 ≤ y) : min (min 0 x) y = 0 := by
  rw [min_eq_left h0, min_eq_left hy]

theorem actB_c8 {n : ℚ} (hn1 : 1/20 ≤ n) (hn2 : n ≤ 2/5) (d : ℚ) :
    actB 0 d n = max (ideal_ou_excesso d) (deficit_leve d) := by
  unfold actB regra_2 regra_3 regra_6 regra_47
  rw [na_plateau hn1 hn2, ideal_at_zero, calor_moderado_at_zero,
    min11 (ideal_ou_excesso_le_one d), min10 (ideal_ou_excesso_nonneg d),
    min11 (deficit_leve_le_one d),
    max_eq_right (le_trans (deficit_leve_nonneg d) (le_max_left _ _)),
    max_left_comm, max_self, max_comm]

theorem actM_c8 {n : ℚ} (hn1 : 1/20 ≤ n) (hn2 : n ≤ 2/5) (d : ℚ) :
    actM 0 d n = deficit_moderado d := by
  unfold actM regra_1 regra_4 regra_5 regra_7 regra_10 regra_17
  rw [na_plateau hn1 hn2, ideal_at_zero, frio_at_zero, calor_moderado_at_zero,
    calor_extremo_at_zero, abaixo_plateau hn1,
    min10 (ideal_ou_excesso_nonneg d), min10 (deficit_leve_nonneg d),
    min11 (deficit_moderado_le_one d), min0any (ideal_ou_excesso_nonneg d) zero_le_one]
  simp only [max_eq_right (deficit_moderado_nonneg d), max_eq_left (deficit_moderado_nonneg d),
    max_self]

theorem actA_c8 {n : ℚ} (hn1 : 1/20 ≤ n) (hn2 : n ≤ 2/5) (d : ℚ) :
    actA 0 d n = seca_severa d := by
  unfold actA regra_8 regra_9 regra_11 regra_13 regra_14 regra_18 regra_19 regra_21 regra_22
    regra_23 regra_25 regra_26 regra_27 regra_28 regra_35 regra_39 regra_40 regra_44 regra_45
    regra_46
  rw [na_plateau hn1 hn2, ideal_at_zero, frio_at_zero, calor_moderado_at_zero,
    calor_extremo_at_zero, abaixo_plateau hn1, muito_plateau hn1,
    min10 (deficit_leve_nonneg d), min10 (deficit_moderado_nonneg d),
    min10 (seca_severa_nonneg d), min11 (seca_severa_le_one d),
    min0any (deficit_leve_nonneg d) zero_le_one,
    min0any (deficit_moderado_nonneg d) zero_le_one,
    min0any (ideal_ou_excesso_nonneg d) (le_refl 0),
    min0any (deficit_leve_nonneg d) (le_refl 0),
    min0any (ideal_ou_excesso_nonneg d) zero_le_one,
    min_eq_left (seca_severa_nonneg d)]
  simp only [max_eq_right (seca_severa_nonneg d), max_eq_left (seca_severa_nonneg d), max_self]

theorem actC_c8 {n : ℚ} (hn1 : 1/20 ≤ n) (hn2 : n ≤ 2/5) (d : ℚ) :
    actC 0 d n = 0 := by
  unfold actC regra_12 regra_15 regra_16 regra_20 regra_24 regra_29 regra_30 regra_31 regra_32
    regra_33 regra_34 regra_36 regra_37 regra_38 regra_41 regra_42 regra_43
  rw [na_plateau hn1 hn2, ideal_at_zero, frio_at_zero, calor_moderado_at_zero,
    calor_extremo_at_zero, abaixo_plateau hn1, muito_plateau hn1,
    min10 (deficit_moderado_nonneg d), min10 (seca_severa_nonneg d),
    min0any (seca_severa_nonneg d) zero_le_one,
    min0any (deficit_leve_nonneg d) (le_refl 0),
    min0any (deficit_moderado_nonneg d) zero_le_one,
    min0any (ideal_ou_excesso_nonneg d) (le_refl 0),
    min0any (deficit_moderado_nonneg d) (le_refl 0),
    min0any (seca_severa_nonneg d) (le_refl 0),
    min_eq_left (seca_severa_nonneg d)]
  simp only [max_self]

theorem ideal_ou_excesso_pos {d : ℚ} (h0 : 0 ≤ d) (h : d < 100) : 0 < ideal_ou_excesso d := by
  unfold ideal_ou_excesso trapmfQ
  split_ifs <;>
    first | (exfalso; linarith) | (norm_num; done) | (apply div_pos <;> linarith)

theorem deficit_leve_pos {d : ℚ} (h1 : 100 ≤ d) (h2 : d < 150) : 0 < deficit_leve d := by
  unfold deficit_leve trimfQ
  split_ifs with g1 g2 g3 <;>
    first | (exfalso; linarith) | (apply div_pos <;> linarith)

theorem deficit_moderado_pos {d : ℚ} (h1 : 150 ≤ d) (h2 : d < 200) :
    0 < deficit_moderado d := by
  unfold deficit_moderado trimfQ
  split_ifs with g1 g2 g3 <;>
    first | (exfalso; linarith) | (apply div_pos <;> linarith)

theorem seca_severa_pos {d : ℚ} (h1 : 150 < d) (h2 : d ≤ 300) : 0 < seca_severa d := by
  unfold seca_severa trapmfQ
  split_ifs <;>
    first | (exfalso; linarith) | (norm_num; done) | (apply div_pos <;> linarith)

theorem ideal_ou_excesso_zero {d : ℚ} (h : 100 ≤ d) : ideal_ou_excesso d = 0 := by
  unfold ideal_ou_excesso trapmfQ
  split_ifs with g1 g2 g3 g4 <;> first | rfl | (exfalso; linarith)

theorem deficit_leve_zero_left {d : ℚ} (h : d ≤ 50) : deficit_leve d = 0 :=
  trimfQ_zero_left h

theorem deficit_leve_zero_right {d : ℚ} (h : 150 ≤ d) : deficit_leve d = 0 :=
  trimfQ_zero_right (by norm_num) h

theorem deficit_moderado_zero_left {d : ℚ} (h : d ≤ 100) : deficit_moderado d = 0 :=
  trimfQ_zero_left h

theorem deficit_moderado_zero_right {d : ℚ} (h : 200 ≤ d) : deficit_moderado d = 0 :=
  trimfQ_zero_right (by norm_num) h

theorem seca_severa_zero {d : ℚ} (h : d ≤ 150) : seca_severa d = 0 := by
  unfold seca_severa trapmfQ
  split_ifs <;>
    first
      | rfl
      | (exfalso; linarith)
      | (have hd : d = 150 := by linarith
         rw [hd]
         norm_num)

theorem rq_baixo_at_15 : rq_baixo 15 = 1 := by norm_num [rq_baixo, trimfQ]

theorem rq_moderado_at_47 : rq_moderado 47 = 34/35 := by norm_num [rq_moderado, trimfQ]

theorem rq_alto_at_77 : rq_alto 77 = 34/35 := by norm_num [rq_alto, trimfQ]

theorem aggAt_ge_b {b m h c : ℚ} (x : ℚ) : min b (rq_baixo x) ≤ aggAt b m h c x :=
  le_max_left _ _

theorem aggAt_ge_m {b m h c : ℚ} (x : ℚ) : min m (rq_moderado x) ≤ aggAt b m h c x :=
  le_trans (le_max_left _ _) (le_max_right _ _)

theorem aggAt_ge_h {b m h c : ℚ} (x : ℚ) : min h (rq_alto x) ≤ aggAt b m h c x :=
  le_trans (le_trans (le_max_left _ _) (le_max_right _ _)) (le_max_right _ _)

theorem aggAt_ge_c {b m h c : ℚ} (x : ℚ) : min c (rq_critico x) ≤ aggAt b m h c x :=
  le_trans (le_trans (le_max_right _ _) (le_max_right _ _)) (le_max_right _ _)

theorem massOf_pos_of_term {b m h c : ℚ} (hb : 0 ≤ b) (i0 : ℕ) (hi0 : i0 < 101)
    (hpos : 0 < aggAt b m h c (i0 : ℚ)) : 0 < massOf b m h c := by
  unfold massOf
  refine Finset.sum_pos' (fun i _ => aggAt_nonneg hb _) ?_
  exact ⟨i0, Finset.mem_range.mpr hi0, hpos⟩

theorem aggAt_b_only {b : ℚ} (hb : 0 ≤ b) (x : ℚ) :
    aggAt b 0 0 0 x = min b (rq_baixo x) := by
  unfold aggAt
  rw [min_eq_left (rq_moderado_nonneg x), min_eq_left (rq_alto_nonneg x),
    min_eq_left (rq_critico_nonneg x), max_self, max_self,
    max_eq_left (le_min hb (rq_baixo_nonneg x))]

theorem aggAt_h_only {h : ℚ} (hh : 0 ≤ h) (x : ℚ) :
    aggAt 0 0 h 0 x = min h (rq_alto x) := by
  unfold aggAt
  rw [min_eq_left (rq_baixo_nonneg x), min_eq_left (rq_moderado_nonneg x),
    min_eq_left (rq_critico_nonneg x), max_eq_left (le_min hh (rq_alto_nonneg x))]
  rw [max_eq_right (le_min hh (rq_alto_nonneg x)),
    max_eq_right (le_min hh (rq_alto_nonneg x))]

theorem rq_alto_reflect (x : ℚ) : rq_alto (155 - x) = rq_alto x := by
  unfold rq_alto
  rw [show (155 : ℚ) - x = 60 + 95 - x from by ring]
  exact trimfQ_reflect (by norm_num) (by norm_num) (by norm_num) x

theorem aggAt_mh_left {m h x : ℚ} (hm : 0 ≤ m) (hh : 0 ≤ h) (hx : x ≤ 60) :
    aggAt 0 m h 0 x = min m (rq_moderado x) := by
  rw [aggAt_mh hh, rq_alto_zero_left hx, min_eq_right hh,
    max_eq_left (le_min hm (rq_moderado_nonneg x))]

theorem aggAt_mh_right {m h x : ℚ} (hm : 0 ≤ m) (hh : 0 ≤ h) (hx : 65 ≤ x) :
    aggAt 0 m h 0 x = min h (rq_alto x) := by
  rw [aggAt_mh hh, rq_moderado_zero_right hx, min_eq_right hm,
    max_eq_right (le_min hh (rq_alto_nonneg x))]

theorem massOf_b_eq {b : ℚ} (hb : 0 ≤ b) :
    massOf b 0 0 0 = ∑ i ∈ Finset.range 101, min b (rq_baixo (i : ℚ)) :=
  Finset.sum_congr rfl fun i _ => aggAt_b_only hb _

theorem momentOf_b_eq {b : ℚ} (hb : 0 ≤ b) : momentOf b 0 0 0 = 15 * massOf b 0 0 0 := by
  unfold momentOf
  rw [massOf_b_eq hb, ← baixo_clip_moment hb]
  exact Finset.sum_congr rfl fun i _ => by rw [aggAt_b_only hb]

theorem massOf_h_eq {h : ℚ} (hh : 0 ≤ h) :
    massOf 0 0 h 0 = ∑ i ∈ Finset.range 101, min h (rq_alto (i : ℚ)) :=
  Finset.sum_congr rfl fun i _ => aggAt_h_only hh _

theorem momentOf_h_eq {h : ℚ} (hh : 0 ≤ h) :
    momentOf 0 0 h 0 = (155 / 2) * massOf 0 0 h 0 := by
  unfold momentOf
  rw [massOf_h_eq hh, ← alto_clip_moment hh]
  exact Finset.sum_congr rfl fun i _ => by rw [aggAt_h_only hh]

theorem momentOf_mh_ge30 {m h : ℚ} (hm : 0 ≤ m) (hh : 0 ≤ h) :
    30 * massOf 0 m h 0 ≤ momentOf 0 m h 0 := by
  unfold momentOf massOf
  rw [Finset.mul_sum]
  refine Finset.sum_le_sum ?_
  intro i _
  rcases le_or_lt i 30 with hi | hi
  · have hz : aggAt 0 m h 0 (i : ℚ) = 0 := by
      have h30 : (i : ℚ) ≤ 30 := by exact_mod_cast hi
      rw [aggAt_mh hh, rq_moderado_zero_left h30, rq_alto_zero_left (by linarith),
        min_eq_right hm, min_eq_right hh, max_self]
    rw [hz, mul_zero, mul_zero]
  · have h30 : (30 : ℚ) ≤ (i : ℚ) := by
      have : (30 : ℚ) < (i : ℚ) := by exact_mod_cast hi
      linarith
    exact mul_le_mul_of_nonneg_right h30 (aggAt_nonneg (le_refl 0) _)

theorem momentOf_mh_le {m h : ℚ} (hm : 0 ≤ m) (hh : 0 ≤ h) :
    momentOf 0 m h 0 ≤ (155 / 2) * massOf 0 m h 0 := by
  have pairbound : ∀ i ∈ Finset.Icc 55 100,
      (fun j : ℕ => ((j : ℚ) - 155 / 2) * aggAt 0 m h 0 (j : ℚ)) i +
        (fun j : ℕ => ((j : ℚ) - 155 / 2) * aggAt 0 m h 0 (j : ℚ)) (55 + 100 - i) ≤ 0 := by
    intro i hi2
    simp only [Finset.mem_Icc] at hi2
    dsimp only
    rw [show (55 + 100 - i : ℕ) = 155 - i from by omega, cast_nat_sub (by omega : i ≤ 155)]
    have hagg : ∀ y : ℚ, 78 ≤ y → aggAt 0 m h 0 y = min h (rq_alto y) := fun y hy =>
      aggAt_mh_right hm hh (by linarith)
    rcases le_or_lt (i : ℚ) 77 with hc | hc
    · have hrefl : aggAt 0 m h 0 (155 - (i : ℚ)) = min h (rq_alto (i : ℚ)) := by
        rw [hagg _ (by linarith), rq_alto_reflect]
      have hge : aggAt 0 m h 0 (155 - (i : ℚ)) ≤ aggAt 0 m h 0 (i : ℚ) := by
        rw [hrefl]
        exact aggAt_ge_h _
      nlinarith [@aggAt_nonneg 0 m h 0 (le_refl 0) (155 - (i : ℚ)),
        @aggAt_nonneg 0 m h 0 (le_refl 0) (i : ℚ)]
    · have h78 : (78 : ℚ) ≤ (i : ℚ) := by
        have : (77 : ℚ) < (i : ℚ) := hc
        have hnat : 78 ≤ i := by exact_mod_cast Nat.lt_iff_add_one_le.mp (by exact_mod_cast this)
        exact_mod_cast hnat
      have hi77 : aggAt 0 m h 0 (i : ℚ) = min h (rq_alto (i : ℚ)) := hagg _ h78
      have hge : aggAt 0 m h 0 (i : ℚ) ≤ aggAt 0 m h 0 (155 - (i : ℚ)) := by
        rw [hi77, ← rq_alto_reflect (i : ℚ)]
        exact aggAt_ge_h _
      nlinarith [@aggAt_nonneg 0 m h 0 (le_refl 0) (155 - (i : ℚ)),
        @aggAt_nonneg 0 m h 0 (le_refl 0) (i : ℚ)]
  have key : ∑ i ∈ Finset.range 101, ((i : ℚ) - 155 / 2) * aggAt 0 m h 0 (i : ℚ) ≤ 0 := by
    rw [Finset.range_eq_Ico,
      ← Finset.sum_Ico_consecutive _ (by omega : 0 ≤ 55) (by omega : 55 ≤ 101)]
    have part1 : ∑ i ∈ Finset.Ico (0 : ℕ) 55, ((i : ℚ) - 155 / 2) * aggAt 0 m h 0 (i : ℚ) ≤ 0 := by
      refine Finset.sum_nonpos ?_
      intro i hi2
      simp only [Finset.mem_Ico] at hi2
      have h1 : (i : ℚ) ≤ 54 := by
        have : i ≤ 54 := by omega
        exact_mod_cast this
      have h2 : (i : ℚ) - 155 / 2 ≤ 0 := by linarith
      exact mul_nonpos_iff.mpr (Or.inr ⟨h2, aggAt_nonneg (le_refl 0) _⟩)
    have part2 : ∑ i ∈ Finset.Ico (55 : ℕ) 101, ((i : ℚ) - 155 / 2) * aggAt 0 m h 0 (i : ℚ) ≤ 0 := by
      have hIcc : Finset.Ico 55 101 = Finset.Icc 55 100 := by rw [← Nat.Ico_succ_right]
      rw [hIcc]
      have h2 : (2 : ℚ) * ∑ i ∈ Finset.Icc (55 : ℕ) 100, ((i : ℚ) - 155 / 2) * aggAt 0 m h 0 (i : ℚ) =
          ∑ i ∈ Finset.Icc (55 : ℕ) 100,
            (((i : ℚ) - 155 / 2) * aggAt 0 m h 0 (i : ℚ) +
              (((55 + 100 - i : ℕ) : ℚ) - 155 / 2) * aggAt 0 m h 0 ((55 + 100 - i : ℕ) : ℚ)) := by
        rw [two_mul]
        nth_rewrite 2 [sum_Icc_reflect 55 100
          (fun j : ℕ => ((j : ℚ) - 155 / 2) * aggAt 0 m h 0 (j : ℚ))]
        rw [← Finset.sum_add_distrib]
      have h4 := Finset.sum_nonpos pairbound
      dsimp only at h4
      linarith [h2 ▸ h4]
    linarith [part1, part2]
  have expand : ∑ i ∈ Finset.range 101, ((i : ℚ) - 155 / 2) * aggAt 0 m h 0 (i : ℚ) =
      momentOf 0 m h 0 - (155 / 2) * massOf 0 m h 0 := by
    unfold momentOf massOf
    rw [Finset.mul_sum, ← Finset.sum_sub_distrib]
    exact Finset.sum_congr rfl fun i _ => by ring
  linarith [expand ▸ key]

theorem max_min_diff_le {a b z1 z2 : ℚ} (hab : b ≤ a) (hz : z1 ≤ z2) :
    max a z1 - max b z2 ≤ a - b := by
  simp only [max_def]
  split_ifs <;> linarith

theorem min_diff_mono {m1 m2 P Q : ℚ} (hm : m2 ≤ m1) (hPQ : Q ≤ P) :
    min m1 Q - min m2 Q ≤ min m1 P - min m2 P := by
  simp only [min_def]
  split_ifs <;> linarith

theorem pair_step {m1 m2 h1 h2 u : ℚ} (hm2 : 0 ≤ m2) (hm : m2 ≤ m1) (hh1 : 0 ≤ h1)
    (hh : h1 ≤ h2) (hu : u ≤ 60) (hPQ : rq_moderado (120 - u) ≤ rq_moderado u) :
    0 ≤ (u - 60) * (aggAt 0 m2 h2 0 u - aggAt 0 m1 h1 0 u) +
        (120 - u - 60) * (aggAt 0 m2 h2 0 (120 - u) - aggAt 0 m1 h1 0 (120 - u)) := by
  have hm1 : 0 ≤ m1 := le_trans hm2 hm
  have hh2 : 0 ≤ h2 := le_trans hh1 hh
  rw [aggAt_mh_left hm2 hh2 hu, aggAt_mh_left hm1 hh1 hu, aggAt_mh hh2 (120 - u),
    aggAt_mh hh1 (120 - u)]
  have l1 : max (min m1 (rq_moderado (120 - u))) (min h1 (rq_alto (120 - u))) -
      max (min m2 (rq_moderado (120 - u))) (min h2 (rq_alto (120 - u))) ≤
        min m1 (rq_moderado (120 - u)) - min m2 (rq_moderado (120 - u)) :=
    max_min_diff_le (min_le_min hm (le_refl _)) (min_le_min hh (le_refl _))
  have l2 := min_diff_mono hm hPQ
  have hcoef : (0 : ℚ) ≤ 60 - u := by linarith
  nlinarith [mul_nonneg hcoef (sub_nonneg.mpr (le_trans l1 l2))]

theorem momentOf_mh_sub60_mono {m1 m2 h1 h2 : ℚ} (hm2 : 0 ≤ m2) (hm : m2 ≤ m1)
    (hh1 : 0 ≤ h1) (hh : h1 ≤ h2) :
    momentOf 0 m1 h1 0 - 60 * massOf 0 m1 h1 0 ≤
      momentOf 0 m2 h2 0 - 60 * massOf 0 m2 h2 0 := by
  have hm1 : 0 ≤ m1 := le_trans hm2 hm
  have hh2 : 0 ≤ h2 := le_trans hh1 hh
  have key : 0 ≤ ∑ i ∈ Finset.range 101,
      ((i : ℚ) - 60) * (aggAt 0 m2 h2 0 (i : ℚ) - aggAt 0 m1 h1 0 (i : ℚ)) := by
    have hsub : Finset.Icc (56 : ℕ) 64 ⊆ Finset.range 101 := by
      intro i hi2
      simp only [Finset.mem_Icc] at hi2
      simp only [Finset.mem_range]
      omega
    rw [← Finset.sum_sdiff hsub]
    have partA : 0 ≤ ∑ i ∈ Finset.range 101 \ Finset.Icc (56 : ℕ) 64,
        ((i : ℚ) - 60) * (aggAt 0 m2 h2 0 (i : ℚ) - aggAt 0 m1 h1 0 (i : ℚ)) := by
      refine Finset.sum_nonneg ?_
      intro i hi2
      simp only [Finset.mem_sdiff, Finset.mem_range, Finset.mem_Icc] at hi2
      rcases le_or_lt i 55 with hle | hgt
      · have hx : (i : ℚ) ≤ 60 := by
          have h55 : (i : ℚ) ≤ 55 := by exact_mod_cast hle
          linarith
        rw [aggAt_mh_left hm2 hh2 hx, aggAt_mh_left hm1 hh1 hx]
        have hd : min m2 (rq_moderado (i : ℚ)) ≤ min m1 (rq_moderado (i : ℚ)) :=
          min_le_min hm (le_refl _)
        have hcoef : (i : ℚ) - 60 ≤ 0 := by linarith
        nlinarith [hd, hcoef]
      · have h65 : 65 ≤ i := by omega
        have hx : (65 : ℚ) ≤ (i : ℚ) := by exact_mod_cast h65
        rw [aggAt_mh_right hm2 hh2 hx, aggAt_mh_right hm1 hh1 hx]
        have hd : min h1 (rq_alto (i : ℚ)) ≤ min h2 (rq_alto (i : ℚ)) :=
          min_le_min hh (le_refl _)
        have hcoef : (0 : ℚ) ≤ (i : ℚ) - 60 := by linarith
        nlinarith [hd, hcoef]
    have partP : 0 ≤ ∑ i ∈ Finset.Icc (56 : ℕ) 64,
        ((i : ℚ) - 60) * (aggAt 0 m2 h2 0 (i : ℚ) - aggAt 0 m1 h1 0 (i : ℚ)) := by
      have pb : ∀ i ∈ Finset.Icc (56 : ℕ) 64,
          0 ≤ (fun j : ℕ => ((j : ℚ) - 60) *
                (aggAt 0 m2 h2 0 (j : ℚ) - aggAt 0 m1 h1 0 (j : ℚ))) i +
              (fun j : ℕ => ((j : ℚ) - 60) *
                (aggAt 0 m2 h2 0 (j : ℚ) - aggAt 0 m1 h1 0 (j : ℚ))) (56 + 64 - i) := by
        intro i hi2
        simp only [Finset.mem_Icc] at hi2
        obtain ⟨hlo, hhi⟩ := hi2
        dsimp only
        interval_cases i
        · have hstep := pair_step hm2 hm hh1 hh (show (56 : ℚ) ≤ 60 by norm_num)
            (show rq_moderado (120 - (56 : ℚ)) ≤ rq_moderado 56 by
              norm_num [rq_moderado, trimfQ])
          norm_num at hstep ⊢
          linarith [hstep]
        · have hstep := pair_step hm2 hm hh1 hh (show (57 : ℚ) ≤ 60 by norm_num)
            (show rq_moderado (120 - (57 : ℚ)) ≤ rq_moderado 57 by
              norm_num [rq_moderado, trimfQ])
          norm_num at hstep ⊢
          linarith [hstep]
        · have hstep := pair_step hm2 hm hh1 hh (show (58 : ℚ) ≤ 60 by norm_num)
            (show rq_moderado (120 - (58 : ℚ)) ≤ rq_moderado 58 by
              norm_num [rq_moderado, trimfQ])
          norm_num at hstep ⊢
          linarith [hstep]
        · have hstep := pair_step hm2 hm hh1 hh (show (59 : ℚ) ≤ 60 by norm_num)
            (show rq_moderado (120 - (59 : ℚ)) ≤ rq_moderado 59 by
              norm_num [rq_moderado, trimfQ])
          norm_num at hstep ⊢
          linarith [hstep]
        · norm_num
        · have hstep := pair_step hm2 hm hh1 hh (show (59 : ℚ) ≤ 60 by norm_num)
            (show rq_moderado (120 - (59 : ℚ)) ≤ rq_moderado 59 by
              norm_num [rq_moderado, trimfQ])
          norm_num at hstep ⊢
          linarith [hstep]
        · have hstep := pair_step hm2 hm hh1 hh (show (58 : ℚ) ≤ 60 by norm_num)
            (show rq_moderado (120 - (58 : ℚ)) ≤ rq_moderado 58 by
              norm_num [rq_moderado, trimfQ])
          norm_num at hstep ⊢
          linarith [hstep]
        · have hstep := pair_step hm2 hm hh1 hh (show (57 : ℚ) ≤ 60 by norm_num)
            (show rq_moderado (120 - (57 : ℚ)) ≤ rq_moderado 57 by
              norm_num [rq_moderado, trimfQ])
          norm_num at hstep ⊢
          linarith [hstep]
        · have hstep := pair_step hm2 hm hh1 hh (show (56 : ℚ) ≤ 60 by norm_num)
            (show rq_moderado (120 - (56 : ℚ)) ≤ rq_moderado 56 by
              norm_num [rq_moderado, trimfQ])
          norm_num at hstep ⊢
          linarith [hstep]
      have h2 : (2 : ℚ) * ∑ i ∈ Finset.Icc (56 : ℕ) 64,
          ((i : ℚ) - 60) * (aggAt 0 m2 h2 0 (i : ℚ) - aggAt 0 m1 h1 0 (i : ℚ)) =
          ∑ i ∈ Finset.Icc (56 : ℕ) 64,
            (((i : ℚ) - 60) * (aggAt 0 m2 h2 0 (i : ℚ) - aggAt 0 m1 h1 0 (i : ℚ)) +
              (((56 + 64 - i : ℕ) : ℚ) - 60) *
                (aggAt 0 m2 h2 0 ((56 + 64 - i : ℕ) : ℚ) -
                  aggAt 0 m1 h1 0 ((56 + 64 - i : ℕ) : ℚ))) := by
        rw [two_mul]
        nth_rewrite 2 [sum_Icc_reflect 56 64
          (fun j : ℕ => ((j : ℚ) - 60) * (aggAt 0 m2 h2 0 (j : ℚ) - aggAt 0 m1 h1 0 (j : ℚ)))]
        rw [← Finset.sum_add_distrib]
      have h4 := Finset.sum_nonneg pb
      dsimp only at h4
      linarith [h2 ▸ h4]
    linarith [partA, partP]
  have expand : ∑ i ∈ Finset.range 101,
      ((i : ℚ) - 60) * (aggAt 0 m2 h2 0 (i : ℚ) - aggAt 0 m1 h1 0 (i : ℚ)) =
      (momentOf 0 m2 h2 0 - 60 * massOf 0 m2 h2 0) -
        (momentOf 0 m1 h1 0 - 60 * massOf 0 m1 h1 0) := by
    unfold momentOf massOf
    rw [Finset.mul_sum, Finset.mul_sum, ← Finset.sum_sub_distrib, ← Finset.sum_sub_distrib,
      ← Finset.sum_sub_distrib]
    exact Finset.sum_congr rfl fun i _ => by ring
  linarith [expand ▸ key]

theorem deficit_moderado_anti {d1 d2 : ℚ} (h1 : 150 ≤ d1) (h12 : d1 ≤ d2) :
    deficit_moderado d2 ≤ deficit_moderado d1 := by
  unfold deficit_moderado trimfQ
  split_ifs <;> first | (exfalso; linarith) | linarith

theorem seca_severa_mono {d1 d2 : ℚ} (h12 : d1 ≤ d2) (h300 : d2 ≤ 300) :
    seca_severa d1 ≤ seca_severa d2 := by
  unfold seca_severa trapmfQ
  split_ifs <;> first | (exfalso; linarith) | linarith

theorem deficit_leve_anti {d1 d2 : ℚ} (h1 : 100 ≤ d1) (h12 : d1 ≤ d2) :
    deficit_leve d2 ≤ deficit_leve d1 := by
  unfold deficit_leve trimfQ
  split_ifs <;> first | (exfalso; linarith) | linarith

theorem deficit_moderado_mono150 {d1 d2 : ℚ} (h12 : d1 ≤ d2) (h2 : d2 ≤ 150) :
    deficit_moderado d1 ≤ deficit_moderado d2 := by
  unfold deficit_moderado trimfQ
  split_ifs <;> first | (exfalso; linarith) | linarith

theorem catIdx_cat_lt30 {q : ℚ} (h : q < 30) : catIdx (categorizar q) = 0 := by
  unfold categorizar
  rw [if_pos h]
  decide

theorem catIdx_cat_30_60 {q : ℚ} (h1 : 30 ≤ q) (h2 : q < 60) : catIdx (categorizar q) = 1 := by
  unfold categorizar
  rw [if_neg (not_lt.mpr h1), if_pos h2]
  decide

theorem catIdx_cat_60_90 {q : ℚ} (h1 : 60 ≤ q) (h2 : q < 90) : catIdx (categorizar q) = 2 := by
  unfold categorizar
  rw [if_neg (not_lt.mpr (by linarith : (30:ℚ) ≤ q)), if_neg (not_lt.mpr h1), if_pos h2]
  decide

theorem catIdx_cat_ge90 {q : ℚ} (h1 : 90 ≤ q) : catIdx (categorizar q) = 3 := by
  unfold categorizar
  rw [if_neg (not_lt.mpr (by linarith : (30:ℚ) ≤ q)),
    if_neg (not_lt.mpr (by linarith : (60:ℚ) ≤ q)), if_neg (not_lt.mpr h1)]
  decide

theorem catIdx_mono {s1 s2 : ℚ} (h : s1 ≤ s2) :
    catIdx (categorizar s1) ≤ catIdx (categorizar s2) := by
  rcases lt_or_le s1 30 with h1 | h1
  · rw [catIdx_cat_lt30 h1]
    exact Nat.zero_le _
  · rcases lt_or_le s1 60 with h2 | h2
    · rw [catIdx_cat_30_60 h1 h2]
      rcases lt_or_le s2 60 with h3 | h3
      · rw [catIdx_cat_30_60 (by linarith) h3]
      · rcases lt_or_le s2 90 with h4 | h4
        · rw [catIdx_cat_60_90 h3 h4]
          omega
        · rw [catIdx_cat_ge90 h4]
          omega
    · rcases lt_or_le s1 90 with h3 | h3
      · rw [catIdx_cat_60_90 h2 h3]
        rcases lt_or_le s2 90 with h4 | h4
        · rw [catIdx_cat_60_90 (by linarith) h4]
        · rw [catIdx_cat_ge90 h4]
          omega
      · rw [catIdx_cat_ge90 h3, catIdx_cat_ge90 (by linarith)]

theorem massC8_pos {d : ℚ} (hd1 : 0 ≤ d) (hd2 : d ≤ 300) :
    0 < massOf (max (ideal_ou_excesso d) (deficit_leve d)) (deficit_moderado d)
      (seca_severa d) 0 := by
  have hb0 : 0 ≤ max (ideal_ou_excesso d) (deficit_leve d) :=
    le_trans (ideal_ou_excesso_nonneg d) (le_max_left _ _)
  rcases lt_or_le d 150 with hc | hc
  · have hbpos : 0 < max (ideal_ou_excesso d) (deficit_leve d) := by
      rcases lt_or_le d 100 with hcc | hcc
      · exact lt_of_lt_of_le (ideal_ou_excesso_pos hd1 hcc) (le_max_left _ _)
      · exact lt_of_lt_of_le (deficit_leve_pos hcc hc) (le_max_right _ _)
    refine massOf_pos_of_term hb0 15 (by omega) ?_
    have h15 : ((15 : ℕ) : ℚ) = (15 : ℚ) := by norm_num
    rw [h15]
    refine lt_of_lt_of_le ?_ (aggAt_ge_b 15)
    rw [rq_baixo_at_15]
    exact lt_min hbpos one_pos
  · rcases lt_or_le d 200 with hc2 | hc2
    · refine massOf_pos_of_term hb0 47 (by omega) ?_
      have h47 : ((47 : ℕ) : ℚ) = (47 : ℚ) := by norm_num
      rw [h47]
      refine lt_of_lt_of_le ?_ (aggAt_ge_m 47)
      rw [rq_moderado_at_47]
      exact lt_min (deficit_moderado_pos hc hc2) (by norm_num)
    · refine massOf_pos_of_term hb0 77 (by omega) ?_
      have h77 : ((77 : ℕ) : ℚ) = (77 : ℚ) := by norm_num
      rw [h77]
      refine lt_of_lt_of_le ?_ (aggAt_ge_h 77)
      rw [rq_alto_at_77]
      exact lt_min (seca_severa_pos (by linarith) hd2) (by norm_num)

theorem simular_c8_eq {n d : ℚ} (hn1 : 1/20 ≤ n) (hn2 : n ≤ 2/5) (hd1 : 0 ≤ d)
    (hd2 : d ≤ 300) : simular 0 d n = Except.ok (scoreC8 d) := by
  have hB := actB_c8 hn1 hn2 d
  have hM := actM_c8 hn1 hn2 d
  have hA := actA_c8 hn1 hn2 d
  have hC := actC_c8 hn1 hn2 d
  have hmass2 : massOf (actB 0 d n) (actM 0 d n) (actA 0 d n) (actC 0 d n) ≠ 0 := by
    rw [hB, hM, hA, hC]
    exact ne_of_gt (massC8_pos hd1 hd2)
  rw [simular_ok (by norm_num) (by norm_num) hd1 hd2 (by linarith) (by linarith) hmass2]
  unfold scoreC8
  rw [hB, hM, hA, hC]

theorem scoreC8_low {d : ℚ} (hd1 : 0 ≤ d) (hd2 : d ≤ 100) : scoreC8 d = 15 := by
  have hb0 : 0 ≤ max (ideal_ou_excesso d) (deficit_leve d) :=
    le_trans (ideal_ou_excesso_nonneg d) (le_max_left _ _)
  have hT := massC8_pos hd1 (by linarith)
  unfold scoreC8
  rw [deficit_moderado_zero_left hd2, seca_severa_zero (by linarith)] at hT ⊢
  rw [momentOf_b_eq hb0, mul_div_assoc, div_self (ne_of_gt hT), mul_one]

theorem scoreC8_B_form {d : ℚ} (hd1 : 100 ≤ d) (hd2 : d ≤ 150) :
    scoreC8 d =
      (15 * (∑ i ∈ Finset.range 101, min (deficit_leve d) (rq_baixo (i : ℚ))) +
        (95 / 2) * ∑ i ∈ Finset.range 101, min (deficit_moderado d) (rq_moderado (i : ℚ))) /
      ((∑ i ∈ Finset.range 101, min (deficit_leve d) (rq_baixo (i : ℚ))) +
        ∑ i ∈ Finset.range 101, min (deficit_moderado d) (rq_moderado (i : ℚ))) := by
  unfold scoreC8
  rw [ideal_ou_excesso_zero hd1, seca_severa_zero hd2,
    max_eq_right (deficit_leve_nonneg d),
    momentOf_bm (deficit_leve_nonneg d) (deficit_moderado_nonneg d),
    massOf_bm (deficit_leve_nonneg d) (deficit_moderado_nonneg d)]

theorem massC8_B_pos {d : ℚ} (hd1 : 100 ≤ d) (hd2 : d ≤ 150) :
    0 < (∑ i ∈ Finset.range 101, min (deficit_leve d) (rq_baixo (i : ℚ))) +
      ∑ i ∈ Finset.range 101, min (deficit_moderado d) (rq_moderado (i : ℚ)) := by
  have hT := massC8_pos (by linarith : (0:ℚ) ≤ d) (by linarith)
  rw [ideal_ou_excesso_zero hd1, seca_severa_zero hd2,
    max_eq_right (deficit_leve_nonneg d),
    massOf_bm (deficit_leve_nonneg d) (deficit_moderado_nonneg d)] at hT
  exact hT

theorem scoreC8_B_bounds {d : ℚ} (hd1 : 100 ≤ d) (hd2 : d ≤ 150) :
    15 ≤ scoreC8 d ∧ scoreC8 d ≤ 95 / 2 := by
  have hTb := clipSum_nonneg (deficit_leve_nonneg d) rq_baixo rq_baixo_nonneg
  have hTm := clipSum_nonneg (deficit_moderado_nonneg d) rq_moderado rq_moderado_nonneg
  have hT := massC8_B_pos hd1 hd2
  rw [scoreC8_B_form hd1 hd2]
  constructor
  · rw [le_div_iff hT]
    nlinarith [hTb, hTm]
  · rw [div_le_iff hT]
    nlinarith [hTb, hTm]

theorem scoreC8_B_mono {d1 d2 : ℚ} (h1 : 100 ≤ d1) (h12 : d1 ≤ d2) (h2 : d2 ≤ 150) :
    scoreC8 d1 ≤ scoreC8 d2 := by
  have hTb1 := clipSum_nonneg (deficit_leve_nonneg d1) rq_baixo rq_baixo_nonneg
  have hTm1 := clipSum_nonneg (deficit_moderado_nonneg d1) rq_moderado rq_moderado_nonneg
  have hTb2 := clipSum_nonneg (deficit_leve_nonneg d2) rq_baixo rq_baixo_nonneg
  have hTm2 := clipSum_nonneg (deficit_moderado_nonneg d2) rq_moderado rq_moderado_nonneg
  have hT1 := massC8_B_pos h1 (by linarith)
  have hT2 := massC8_B_pos (by linarith) h2
  have hb : (∑ i ∈ Finset.range 101, min (deficit_leve d2) (rq_baixo (i : ℚ))) ≤
      ∑ i ∈ Finset.range 101, min (deficit_leve d1) (rq_baixo (i : ℚ)) :=
    clipSum_mono (deficit_leve_anti h1 h12) rq_baixo
  have hm : (∑ i ∈ Finset.range 101, min (deficit_moderado d1) (rq_moderado (i : ℚ))) ≤
      ∑ i ∈ Finset.range 101, min (deficit_moderado d2) (rq_moderado (i : ℚ)) :=
    clipSum_mono (deficit_moderado_mono150 h12 h2) rq_moderado
  rw [scoreC8_B_form h1 (by linarith), scoreC8_B_form (by linarith) h2,
    div_le_div_iff hT1 hT2]
  nlinarith [mul_le_mul hb hm hTm1 (le_trans hTb2 hb)]

theorem scoreC8_C_form {d : ℚ} (hd1 : 150 ≤ d) :
    scoreC8 d = momentOf 0 (deficit_moderado d) (seca_severa d) 0 /
      massOf 0 (deficit_moderado d) (seca_severa d) 0 := by
  unfold scoreC8
  rw [ideal_ou_excesso_zero (by linarith), deficit_leve_zero_right hd1, max_self]

theorem massC8_C_pos {d : ℚ} (hd1 : 150 ≤ d) (hd2 : d ≤ 300) :
    0 < massOf 0 (deficit_moderado d) (seca_severa d) 0 := by
  have hT := massC8_pos (by linarith : (0:ℚ) ≤ d) hd2
  rw [ideal_ou_excesso_zero (by linarith), deficit_leve_zero_right hd1, max_self] at hT
  exact hT

theorem scoreC8_C_bounds {d : ℚ} (hd1 : 150 ≤ d) (hd2 : d ≤ 300) :
    30 ≤ scoreC8 d ∧ scoreC8 d ≤ 155 / 2 := by
  have hT := massC8_C_pos hd1 hd2
  rw [scoreC8_C_form hd1]
  constructor
  · rw [le_div_iff hT]
    have := momentOf_mh_ge30 (deficit_moderado_nonneg d) (seca_severa_nonneg d)
    linarith
  · rw [div_le_iff hT]
    have := momentOf_mh_le (deficit_moderado_nonneg d) (seca_severa_nonneg d)
    linarith

theorem scoreC8_C_60 {d1 d2 : ℚ} (h1 : 150 ≤ d1) (h12 : d1 ≤ d2) (h2 : d2 ≤ 300)
    (hs : 60 ≤ scoreC8 d1) : 60 ≤ scoreC8 d2 := by
  have hT1 := massC8_C_pos h1 (by linarith)
  have hT2 := massC8_C_pos (by linarith) h2
  rw [scoreC8_C_form h1, le_div_iff hT1] at hs
  rw [scoreC8_C_form (by linarith), le_div_iff hT2]
  have hmono := momentOf_mh_sub60_mono (deficit_moderado_nonneg d2)
    (deficit_moderado_anti h1 h12) (seca_severa_nonneg d1) (seca_severa_mono h12 h2)
  linarith

theorem scoreC8_at_250 : scoreC8 (250 : ℚ) = 155 / 2 := by
  have hmass := massC8_C_pos (show (150:ℚ) ≤ 250 by norm_num) (show (250:ℚ) ≤ 300 by norm_num)
  have hMd : deficit_moderado (250 : ℚ) = 0 := deficit_moderado_zero_right (by norm_num)
  have hS : seca_severa (250 : ℚ) = 1 := by norm_num [seca_severa, trapmfQ]
  rw [hMd, hS] at hmass
  rw [scoreC8_C_form (by norm_num), hMd, hS, momentOf_h_eq zero_le_one, mul_div_assoc,
    div_self (ne_of_gt hmass), mul_one]

/-- C8: along the monotonicity test line of the spec — thermal anomaly held
at its ideal value 0 and ndvi anomaly held at any value of the
na_media_ou_acima plateau (which contains the example value 0.1) — the risk
category of the simulated score is monotone in the water deficit: for
deficits d1 ≤ d2 inside the universe, the category at d2 is not lower in
the order baixo < moderado < alto < critico than the category at d1. -/
theorem claim_c8 (n d1 d2 q1 q2 : ℚ) (hn1 : 1/20 ≤ n) (hn2 : n ≤ 2/5)
    (hd0 : 0 ≤ d1) (h12 : d1 ≤ d2) (hd3 : d2 ≤ 300)
    (e1 : simular 0 d1 n = Except.ok q1) (e2 : simular 0 d2 n = Except.ok q2) :
    catIdx (categorizar q1) ≤ catIdx (categorizar q2) := by
  have hq1 : q1 = scoreC8 d1 :=
    (Except.ok.inj ((simular_c8_eq hn1 hn2 hd0 (by linarith)).symm.trans e1)).symm
  have hq2 : q2 = scoreC8 d2 :=
    (Except.ok.inj ((simular_c8_eq hn1 hn2 (by linarith) hd3).symm.trans e2)).symm
  subst hq1
  subst hq2
  rcases le_or_lt d1 100 with hA | hA
  · rcases le_or_lt d2 100 with hB | hB
    · rw [scoreC8_low hd0 hA, scoreC8_low (by linarith) hB]
    · rw [scoreC8_low hd0 hA, catIdx_cat_lt30 (show (15:ℚ) < 30 by norm_num)]
      exact Nat.zero_le _
  · rcases le_or_lt d2 150 with hB | hB
    · exact catIdx_mono (scoreC8_B_mono (le_of_lt hA) h12 hB)
    · rcases le_or_lt d1 150 with hC | hC
      · have hs1 := scoreC8_B_bounds (le_of_lt hA) hC
        have hs2 := scoreC8_C_bounds (le_of_lt hB) hd3
        have h1le : catIdx (categorizar (scoreC8 d1)) ≤ 1 := by
          rcases lt_or_le (scoreC8 d1) 30 with hx | hx
          · rw [catIdx_cat_lt30 hx]
            omega
          · rw [catIdx_cat_30_60 hx (by linarith [hs1.2])]
        have h2ge : 1 ≤ catIdx (categorizar (scoreC8 d2)) := by
          rcases lt_or_le (scoreC8 d2) 60 with hy | hy
          · rw [catIdx_cat_30_60 hs2.1 hy]
          · rw [catIdx_cat_60_90 hy (by linarith [hs2.2])]
            omega
        omega
      · have hs1 := scoreC8_C_bounds (le_of_lt hC) (by linarith)
        have hs2 := scoreC8_C_bounds (by linarith) hd3
        rcases lt_or_le (scoreC8 d1) 60 with hx | hx
        · have h1le : catIdx (categorizar (scoreC8 d1)) ≤ 1 := by
            rcases lt_or_le (scoreC8 d1) 30 with hw | hw
            · rw [catIdx_cat_lt30 hw]
              omega
            · rw [catIdx_cat_30_60 hw hx]
          have h2ge : 1 ≤ catIdx (categorizar (scoreC8 d2)) := by
            rcases lt_or_le (scoreC8 d2) 60 with hy | hy
            · rw [catIdx_cat_30_60 hs2.1 hy]
            · rw [catIdx_cat_60_90 hy (by linarith [hs2.2])]
              omega
          omega
        · have h60 := scoreC8_C_60 (le_of_lt hC) h12 hd3 hx
          rw [catIdx_cat_60_90 hx (by linarith [hs1.2]),
            catIdx_cat_60_90 h60 (by linarith [hs2.2])]

/-- Witness for C8 at the spec example values: ndvi anomaly 0.1, deficits
50 and 250; the categories are baixo and alto respectively. -/
theorem claim_c8_witness : catIdx (categorizar 15) ≤ catIdx (categorizar (155/2)) := by
  have e1 : simular 0 50 (1/10) = Except.ok 15 := by
    rw [simular_c8_eq (by norm_num) (by norm_num) (by norm_num) (by norm_num),
      scoreC8_low (by norm_num) (by norm_num)]
  have e2 : simular 0 250 (1/10) = Except.ok (155/2) := by
    rw [simular_c8_eq (by norm_num) (by norm_num) (by norm_num) (by norm_num), scoreC8_at_250]
  exact claim_c8 (1/10) 50 250 15 (155/2) (by norm_num) (by norm_num) (by norm_num)
    (by norm_num) (by norm_num) e1 e2

theorem muQ_nonneg (a d n x : ℚ) : 0 ≤ muQ a d n x := foldr_max_nonneg _

theorem massQ_nonneg (a d n : ℚ) : 0 ≤ massQ a d n :=
  Finset.sum_nonneg fun i _ => muQ_nonneg a d n (i : ℚ)

theorem consequenteMf_peak (t : Consequente) : ∃ i : ℕ, i < 101 ∧ 0 < consequenteMf t (i : ℚ) := by
  cases t
  · exact ⟨15, by omega, by norm_num [consequenteMf, rq_baixo, trimfQ]⟩
  · exact ⟨47, by omega, by norm_num [consequenteMf, rq_moderado, trimfQ]⟩
  · exact ⟨77, by omega, by norm_num [consequenteMf, rq_alto, trimfQ]⟩
  · exact ⟨100, by omega, by norm_num [consequenteMf, rq_critico, trapmfQ]⟩

theorem massQ_pos_of_rule {a d n s : ℚ} {t : Consequente} (hmem : (s, t) ∈ regras a d n)
    (hs : 0 < s) : 0 < massQ a d n := by
  obtain ⟨i, hi, hp⟩ := consequenteMf_peak t
  unfold massQ
  refine Finset.sum_pos' (fun j _ => muQ_nonneg a d n _) ⟨i, Finset.mem_range.mpr hi, ?_⟩
  have helem : min s (consequenteMf t (i : ℚ)) ∈
      (regras a d n).map (fun r => min r.1 (consequenteMf r.2 (i : ℚ))) :=
    List.mem_map.mpr ⟨(s, t), hmem, rfl⟩
  exact lt_of_lt_of_le (lt_min hs hp) (le_foldr_max helem)

theorem maxStrength_pos_of_rule {a d n s : ℚ} {t : Consequente} (hmem : (s, t) ∈ regras a d n)
    (hs : 0 < s) : 0 < maxStrength a d n :=
  lt_of_lt_of_le hs (le_foldr_max (List.mem_map.mpr ⟨(s, t), hmem, rfl⟩))

theorem ideal_pos {a : ℚ} (h1 : -7 < a) (h2 : a < 7) : 0 < ideal a := by
  unfold ideal trimfQ
  split_ifs <;> first | (exfalso; linarith) | (apply div_pos <;> linarith)

theorem muito_abaixo_pos {n : ℚ} (h1 : -2/5 ≤ n) (h2 : n < -3/20) : 0 < muito_abaixo_media n := by
  unfold muito_abaixo_media trapmfQ
  split_ifs <;> first | (exfalso; linarith) | (norm_num; done) | (apply div_pos <;> linarith)

theorem abaixo_pos {n : ℚ} (h1 : -3/20 ≤ n) (h2 : n < 0) : 0 < abaixo_media n := by
  unfold abaixo_media trimfQ
  split_ifs <;> first | (exfalso; linarith) | (apply div_pos <;> linarith)

theorem na_pos {n : ℚ} (h1 : 0 ≤ n) (h2 : n ≤ 2/5) : 0 < na_media_ou_acima n := by
  unfold na_media_ou_acima trapmfQ
  split_ifs <;> first | (exfalso; linarith) | (norm_num; done) | (apply div_pos <;> linarith)

theorem massQ_ideal_pos : 0 < massQ 0 50 (1/10) := by
  rw [massQ_eq, actB_c8 (by norm_num) (by norm_num), actM_c8 (by norm_num) (by norm_num),
    actA_c8 (by norm_num) (by norm_num), actC_c8 (by norm_num) (by norm_num)]
  exact massC8_pos (by norm_num) (by norm_num)

theorem simular_ideal_case : simular 0 50 (1/10) = Except.ok 15 := by
  rw [simular_c8_eq (by norm_num) (by norm_num) (by norm_num) (by norm_num),
    scoreC8_low (by norm_num) (by norm_num)]

theorem massOf_zero : massOf 0 0 0 0 = 0 :=
  Finset.sum_eq_zero fun i _ => aggAt_zero _

theorem actB_hole : actB 9 50 (1/10) = 0 := by
  norm_num [actB, regra_2, regra_3, regra_6, regra_47, na_media_ou_acima, ideal_ou_excesso,
    deficit_leve, ideal, calor_moderado, trapmfQ, trimfQ]

theorem actM_hole : actM 9 50 (1/10) = 0 := by
  norm_num [actM, regra_1, regra_4, regra_5, regra_7, regra_10, regra_17, na_media_ou_acima,
    abaixo_media, ideal_ou_excesso, deficit_leve, deficit_moderado, ideal, frio_prejudicial,
    calor_moderado, calor_extremo, trapmfQ, trimfQ]

theorem actA_hole : actA 9 50 (1/10) = 0 := by
  norm_num [actA, regra_8, regra_9, regra_11, regra_13, regra_14, regra_18, regra_19,
    regra_21, regra_22, regra_23, regra_25, regra_26, regra_27, regra_28, regra_35, regra_39,
    regra_40, regra_44, regra_45, regra_46, na_media_ou_acima, abaixo_media,
    muito_abaixo_media, ideal_ou_excesso, deficit_leve, deficit_moderado, seca_severa, ideal,
    frio_prejudicial, calor_moderado, calor_extremo, trapmfQ, trimfQ]

theorem actC_hole : actC 9 50 (1/10) = 0 := by
  norm_num [actC, regra_12, regra_15, regra_16, regra_20, regra_24, regra_29, regra_30,
    regra_31, regra_32, regra_33, regra_34, regra_36, regra_37, regra_38, regra_41, regra_42,
    regra_43, na_media_ou_acima, abaixo_media, muito_abaixo_media, ideal_ou_excesso,
    deficit_leve, deficit_moderado, seca_severa, ideal, frio_prejudicial, calor_moderado,
    calor_extremo, trapmfQ, trimfQ]

theorem massQ_hole : massQ 9 50 (1/10) = 0 := by
  rw [massQ_eq, actB_hole, actM_hole, actA_hole, actC_hole, massOf_zero]

theorem clamp_a_9 : clampQ (-15) 15 (9 : ℚ) = 9 := clampQ_eq_self (by norm_num) (by norm_num)

theorem clamp_d_50 : clampQ 0 300 (50 : ℚ) = 50 := clampQ_eq_self (by norm_num) (by norm_num)

theorem clamp_n_tenth : clampQ (-2/5) (2/5) (1/10 : ℚ) = 1/10 :=
  clampQ_eq_self (by norm_num) (by norm_num)

theorem clamp_a_0 : clampQ (-15) 15 (0 : ℚ) = 0 := clampQ_eq_self (by norm_num) (by norm_num)

/-- C1 counterexample: the input (9, 50, 0.1) lies inside all three
antecedent universes, yet simulate does not return a crisp score at all —
no rule of the table fires there (the thermal anomaly 9 is in the gap
between the supports of ideal and calor_extremo), so the engine signals
the no-rule-matched condition instead of returning a value in [0,100]. -/
theorem claim_c1_counterexample :
    ((-15 : ℚ) ≤ 9 ∧ (9 : ℚ) ≤ 15 ∧ (0 : ℚ) ≤ 50 ∧ (50 : ℚ) ≤ 300 ∧
      (-2/5 : ℚ) ≤ 1/10 ∧ (1/10 : ℚ) ≤ 2/5) ∧
    simular 9 50 (1/10) = Except.error "no rule matched" := by
  refine ⟨by norm_num, ?_⟩
  simp only [simular, clamp_a_9, clamp_d_50, clamp_n_tenth]
  rw [if_pos massQ_hole]

/-- C1 (amended): whenever simulate succeeds — that is, whenever it returns
a crisp score at all — that score lies in the closed interval [0,100]. -/
theorem claim_c1 (a d n q : ℚ) (h : simular a d n = Except.ok q) : 0 ≤ q ∧ q ≤ 100 := by
  by_cases hm : massQ (clampQ (-15) 15 a) (clampQ 0 300 d) (clampQ (-2/5) (2/5) n) = 0
  · exfalso
    simp only [simular] at h
    rw [if_pos hm] at h
    exact Except.noConfusion h
  · simp only [simular] at h
    rw [if_neg hm] at h
    have hq := Except.ok.inj h
    have hT0 := massQ_nonneg (clampQ (-15) 15 a) (clampQ 0 300 d) (clampQ (-2/5) (2/5) n)
    have hTpos : 0 < massQ (clampQ (-15) 15 a) (clampQ 0 300 d) (clampQ (-2/5) (2/5) n) :=
      lt_of_le_of_ne hT0 (Ne.symm hm)
    have hS0 : 0 ≤ ∑ i ∈ Finset.range 101,
        (i : ℚ) * muQ (clampQ (-15) 15 a) (clampQ 0 300 d) (clampQ (-2/5) (2/5) n) (i : ℚ) :=
      Finset.sum_nonneg fun i _ => mul_nonneg (by positivity) (muQ_nonneg _ _ _ _)
    have hS100 : (∑ i ∈ Finset.range 101,
        (i : ℚ) * muQ (clampQ (-15) 15 a) (clampQ 0 300 d) (clampQ (-2/5) (2/5) n) (i : ℚ)) ≤
          100 * massQ (clampQ (-15) 15 a) (clampQ 0 300 d) (clampQ (-2/5) (2/5) n) := by
      unfold massQ
      rw [Finset.mul_sum]
      refine Finset.sum_le_sum ?_
      intro i hi2
      simp only [Finset.mem_range] at hi2
      have h100 : (i : ℚ) ≤ 100 := by
        have : i ≤ 100 := by omega
        exact_mod_cast this
      exact mul_le_mul_of_nonneg_right h100 (muQ_nonneg _ _ _ _)
    rw [← hq]
    constructor
    · exact div_nonneg hS0 hT0
    · rw [div_le_iff hTpos]
      linarith

/-- Witness for C1 (amended) at the in-range input (0, 50, 0.1), whose
score is exactly 15. -/
theorem claim_c1_witness : 0 ≤ (15 : ℚ) ∧ (15 : ℚ) ≤ 100 :=
  claim_c1 0 50 (1/10) 15 simular_ideal_case

/-- C2: on [0,100] the classifier categorizar realizes exactly the
half-open threshold map of the spec: [0,30) gives baixo, [30,60) gives
moderado, [60,90) gives alto and [90,100] gives the top label (spelled
crítico in the source); it is a pure function of its argument. -/
theorem claim_c2 (q : ℚ) (h0 : 0 ≤ q) (h1 : q ≤ 100) :
    (categorizar q = "baixo" ↔ q < 30) ∧
    (categorizar q = "moderado" ↔ 30 ≤ q ∧ q < 60) ∧
    (categorizar q = "alto" ↔ 60 ≤ q ∧ q < 90) ∧
    (categorizar q = "crítico" ↔ 90 ≤ q) := by
  unfold categorizar
  split_ifs with ha hb hc <;>
    refine ⟨⟨fun hh => ?_, fun hh => ?_⟩, ⟨fun hh => ?_, fun hh => ?_⟩,
      ⟨fun hh => ?_, fun hh => ?_⟩, ⟨fun hh => ?_, fun hh => ?_⟩⟩ <;>
    first
      | rfl
      | assumption
      | (exact absurd hh (by decide))
      | (constructor <;> linarith)
      | linarith
      | (exfalso; rcases hh with ⟨hx, hy⟩; linarith)

/-- Witness for C2 at the score 45, which is classified moderado. -/
theorem claim_c2_witness :
    (categorizar 45 = "baixo" ↔ (45 : ℚ) < 30) ∧
    (categorizar 45 = "moderado" ↔ (30 : ℚ) ≤ 45 ∧ (45 : ℚ) < 60) ∧
    (categorizar 45 = "alto" ↔ (60 : ℚ) ≤ 45 ∧ (45 : ℚ) < 90) ∧
    (categorizar 45 = "crítico" ↔ (90 : ℚ) ≤ 45) :=
  claim_c2 45 (by norm_num) (by norm_num)

/-- C4: whenever the total aggregated membership mass over the consequent
universe is zero, simulate performs no centroid division at all — it
signals the recoverable no-rule-matched condition to the caller, so it can
never divide by zero or silently return a junk score. -/
theorem claim_c4 (a d n : ℚ)
    (hmass : massQ (clampQ (-15) 15 a) (clampQ 0 300 d) (clampQ (-2/5) (2/5) n) = 0) :
    simular a d n = Except.error "no rule matched" := by
  simp only [simular]
  rw [if_pos hmass]

/-- Witness for C4 at the uncovered in-range input (9, 50, 0.1). -/
theorem claim_c4_witness : simular 9 50 (1/10) = Except.error "no rule matched" :=
  claim_c4 9 50 (1/10) (by rw [clamp_a_9, clamp_d_50, clamp_n_tenth]; exact massQ_hole)

/-- C5: when the aggregated mass is nonzero, the crisp score is the
discrete centroid: the sum of x times mu(x) over the sample points
0, 1, ..., 100 of the consequent universe divided by the sum of mu(x),
where mu is the pointwise max over all 47 rules of the rule's consequent
curve clipped at its firing strength (muQ). -/
theorem claim_c5 (a d n : ℚ)
    (hmass : massQ (clampQ (-15) 15 a) (clampQ 0 300 d) (clampQ (-2/5) (2/5) n) ≠ 0) :
    simular a d n = Except.ok
      ((∑ i ∈ Finset.range 101, (i : ℚ) *
          muQ (clampQ (-15) 15 a) (clampQ 0 300 d) (clampQ (-2/5) (2/5) n) (i : ℚ)) /
        ∑ i ∈ Finset.range 101,
          muQ (clampQ (-15) 15 a) (clampQ 0 300 d) (clampQ (-2/5) (2/5) n) (i : ℚ)) := by
  simp only [simular]
  rw [if_neg hmass]
  rfl

/-- Witness for C5 at the in-range input (0, 50, 0.1). -/
theorem claim_c5_witness : simular 0 50 (1/10) = Except.ok
    ((∑ i ∈ Finset.range 101, (i : ℚ) * muQ 0 50 (1/10) (i : ℚ)) /
      ∑ i ∈ Finset.range 101, muQ 0 50 (1/10) (i : ℚ)) := by
  have h := claim_c5 0 50 (1/10)
    (by rw [clamp_a_0, clamp_d_50, clamp_n_tenth]; exact ne_of_gt massQ_ideal_pos)
  rw [clamp_a_0, clamp_d_50, clamp_n_tenth] at h
  exact h

/-- C9: simulate never rejects an out-of-range crisp input — it clamps each
input to its universe bounds before fuzzification, so the result on any
input equals the result on the clamped input. -/
theorem claim_c9 (a d n : ℚ) :
    simular a d n = simular (clampQ (-15) 15 a) (clampQ 0 300 d) (clampQ (-2/5) (2/5) n) := by
  simp only [simular]
  rw [clampQ_idem (by norm_num : (-15 : ℚ) ≤ 15) a, clampQ_idem (by norm_num : (0 : ℚ) ≤ 300) d,
    clampQ_idem (by norm_num : (-2/5 : ℚ) ≤ 2/5) n]

/-- C10: categorizar is total on all rational scores, not just [0,100]:
every score below 30, including negative scores, maps to baixo; every
score at or above 90, including scores above 100, maps to the top label;
and every score maps to one of the four labels. -/
theorem claim_c10 (q : ℚ) :
    (q < 30 ↔ categorizar q = "baixo") ∧
    (90 ≤ q ↔ categorizar q = "crítico") ∧
    (categorizar q = "baixo" ∨ categorizar q = "moderado" ∨ categorizar q = "alto" ∨
      categorizar q = "crítico") := by
  unfold categorizar
  split_ifs with ha hb hc <;>
    refine ⟨⟨fun hh => ?_, fun hh => ?_⟩, ⟨fun hh => ?_, fun hh => ?_⟩, ?_⟩ <;>
    first
      | rfl
      | assumption
      | (exact absurd hh (by decide))
      | linarith
      | (exfalso; linarith)
      | (exact Or.inl rfl)
      | (exact Or.inr (Or.inl rfl))
      | (exact Or.inr (Or.inr (Or.inl rfl)))
      | (exact Or.inr (Or.inr (Or.inr rfl)))

theorem frio_pos {a : ℚ} (h1 : -15 ≤ a) (h2 : a < -5) : 0 < frio_prejudicial a := by
  unfold frio_prejudicial trapmfQ
  split_ifs <;> first | (exfalso; linarith) | (norm_num; done) | (apply div_pos <;> linarith)

theorem calor_extremo_pos {a : ℚ} (h1 : 11 < a) (h2 : a ≤ 15) : 0 < calor_extremo a := by
  unfold calor_extremo trapmfQ
  split_ifs <;> first | (exfalso; linarith) | (norm_num; done) | (apply div_pos <;> linarith)

theorem na_pos_wide {n : ℚ} (h1 : -1/20 < n) (h2 : n ≤ 2/5) : 0 < na_media_ou_acima n := by
  unfold na_media_ou_acima trapmfQ
  split_ifs <;> first | (exfalso; linarith) | (norm_num; done) | (apply div_pos <;> linarith)

theorem abaixo_pos_wide {n : ℚ} (h1 : -1/5 < n) (h2 : n < 0) : 0 < abaixo_media n := by
  unfold abaixo_media trimfQ
  split_ifs <;> first | (exfalso; linarith) | (norm_num; done) | (apply div_pos <;> linarith)

theorem maxStrength_hole : maxStrength 9 50 (1/10) = 0 := by
  norm_num [maxStrength, regras, regra_1, regra_2, regra_3, regra_4, regra_5, regra_6,
    regra_7, regra_8, regra_9, regra_10, regra_11, regra_12, regra_13, regra_14, regra_15,
    regra_16, regra_17, regra_18, regra_19, regra_20, regra_21, regra_22, regra_23, regra_24,
    regra_25, regra_26, regra_27, regra_28, regra_29, regra_30, regra_31, regra_32, regra_33,
    regra_34, regra_35, regra_36, regra_37, regra_38, regra_39, regra_40, regra_41, regra_42,
    regra_43, regra_44, regra_45, regra_46, regra_47, frio_prejudicial, ideal, calor_moderado,
    calor_extremo, ideal_ou_excesso, deficit_leve, deficit_moderado, seca_severa,
    muito_abaixo_media, abaixo_media, na_media_ou_acima, trimfQ, trapmfQ]

/-- C3 counterexample: at the in-range input (9, 50, 0.1) every one of the
47 rules has firing strength exactly 0 (the thermal anomaly 9 lies in the
gap between the supports of ideal, which ends at 7, and calor_extremo,
which starts at 11), so the claimed full coverage of the input box fails
and the degenerate zero-mass branch of simulate is reachable. -/
theorem claim_c3_counterexample :
    ((-15 : ℚ) ≤ 9 ∧ (9 : ℚ) ≤ 15 ∧ (0 : ℚ) ≤ 50 ∧ (50 : ℚ) ≤ 300 ∧
      (-2/5 : ℚ) ≤ 1/10 ∧ (1/10 : ℚ) ≤ 2/5) ∧ maxStrength 9 50 (1/10) = 0 :=
  ⟨by norm_num, maxStrength_hole⟩

/-- C3 (amended): coverage holds on the bulk of the in-range input box —
whenever the water deficit exceeds 150 (catch-all rule 45 on seca_severa
fires), or the ndvi anomaly is below -0.15 (catch-all rule 46 on
muito_abaixo_media fires), or the ndvi anomaly is above -0.05 and the
thermal anomaly lies outside the uncovered gap [7,11], or the ndvi anomaly
is in (-0.2,0) with deficit below 150 and thermal anomaly outside [7,11] —
some rule fires with strictly positive strength. -/
theorem claim_c3 (a d n : ℚ) (ha1 : -15 ≤ a) (ha2 : a ≤ 15) (hd1 : 0 ≤ d) (hd2 : d ≤ 300)
    (hn1 : -2/5 ≤ n) (hn2 : n ≤ 2/5)
    (hcov : 150 < d ∨ n < -3/20 ∨ (-1/20 < n ∧ (a < 7 ∨ 11 < a)) ∨
      (-1/5 < n ∧ n < 0 ∧ d < 150 ∧ (a < 7 ∨ 11 < a))) :
    0 < maxStrength a d n := by
  have h45 : 150 < d → 0 < maxStrength a d n := fun hd =>
    maxStrength_pos_of_rule
      (show (regra_45 a d n, Consequente.alto) ∈ regras a d n by simp [regras])
      (by unfold regra_45; exact seca_severa_pos hd hd2)
  rcases hcov with hc | hc | ⟨hn, hth⟩ | ⟨hna, hnb, hdlt, hth⟩
  · exact h45 hc
  · exact maxStrength_pos_of_rule
      (show (regra_46 a d n, Consequente.alto) ∈ regras a d n by simp [regras])
      (by unfold regra_46; exact muito_abaixo_pos hn1 hc)
  · rcases lt_or_le 150 d with hd3 | hd3
    · exact h45 hd3
    · have hNA : 0 < na_media_ou_acima n := na_pos_wide hn hn2
      rcases hth with h7 | h11
      · rcases lt_or_le a (-5) with hf | hf
        · have hTH : 0 < frio_prejudicial a := frio_pos ha1 hf
          rcases lt_or_le d 100 with hdd | hdd
          · exact maxStrength_pos_of_rule
              (show (regra_1 a d n, Consequente.moderado) ∈ regras a d n by simp [regras])
              (by unfold regra_1
                  exact lt_min (lt_min hNA (ideal_ou_excesso_pos hd1 hdd)) hTH)
          · rcases lt_or_le d 150 with hdd2 | hdd2
            · exact maxStrength_pos_of_rule
                (show (regra_5 a d n, Consequente.moderado) ∈ regras a d n by simp [regras])
                (by unfold regra_5
                    exact lt_min (lt_min hNA (deficit_leve_pos hdd hdd2)) hTH)
            · exact maxStrength_pos_of_rule
                (show (regra_9 a d n, Consequente.alto) ∈ regras a d n by simp [regras])
                (by unfold regra_9
                    exact lt_min (lt_min hNA (deficit_moderado_pos hdd2 (by linarith))) hTH)
        · have hTH : 0 < ideal a := ideal_pos (by linarith) h7
          rcases lt_or_le d 100 with hdd | hdd
          · exact maxStrength_pos_of_rule
              (show (regra_2 a d n, Consequente.baixo) ∈ regras a d n by simp [regras])
              (by unfold regra_2
                  exact lt_min (lt_min hNA (ideal_ou_excesso_pos hd1 hdd)) hTH)
          · rcases lt_or_le d 150 with hdd2 | hdd2
            · exact maxStrength_pos_of_rule
                (show (regra_6 a d n, Consequente.baixo) ∈ regras a d n by simp [regras])
                (by unfold regra_6
                    exact lt_min (lt_min hNA (deficit_leve_pos hdd hdd2)) hTH)
            · exact maxStrength_pos_of_rule
                (show (regra_10 a d n, Consequente.moderado) ∈ regras a d n by simp [regras])
                (by unfold regra_10
                    exact lt_min (lt_min hNA (deficit_moderado_pos hdd2 (by linarith))) hTH)
      · have hTH : 0 < calor_extremo a := calor_extremo_pos h11 ha2
        rcases lt_or_le d 100 with hdd | hdd
        · exact maxStrength_pos_of_rule
            (show (regra_4 a d n, Consequente.moderado) ∈ regras a d n by simp [regras])
            (by unfold regra_4
                exact lt_min (lt_min hNA (ideal_ou_excesso_pos hd1 hdd)) hTH)
        · rcases lt_or_le d 150 with hdd2 | hdd2
          · exact maxStrength_pos_of_rule
              (show (regra_8 a d n, Consequente.alto) ∈ regras a d n by simp [regras])
              (by unfold regra_8
                  exact lt_min (lt_min hNA (deficit_leve_pos hdd hdd2)) hTH)
          · exact maxStrength_pos_of_rule
              (show (regra_12 a d n, Consequente.critico) ∈ regras a d n by simp [regras])
              (by unfold regra_12
                  exact lt_min (lt_min hNA (deficit_moderado_pos hdd2 (by linarith))) hTH)
  · have hAB : 0 < abaixo_media n := abaixo_pos_wide hna hnb
    rcases hth with h7 | h11
    · rcases lt_or_le a (-5) with hf | hf
      · have hTH : 0 < frio_prejudicial a := frio_pos ha1 hf
        rcases lt_or_le d 100 with hdd | hdd
        · exact maxStrength_pos_of_rule
            (show (regra_25 a d n, Consequente.alto) ∈ regras a d n by simp [regras])
            (by unfold regra_25
                exact lt_min (lt_min hAB (ideal_ou_excesso_pos hd1 hdd)) hTH)
        · exact maxStrength_pos_of_rule
            (show (regra_26 a d n, Consequente.alto) ∈ regras a d n by simp [regras])
            (by unfold regra_26
                exact lt_min (lt_min hAB (deficit_leve_pos hdd hdlt)) hTH)
      · have hTH : 0 < ideal a := ideal_pos (by linarith) h7
        rcases lt_or_le d 100 with hdd | hdd
        · exact maxStrength_pos_of_rule
            (show (regra_17 a d n, Consequente.moderado) ∈ regras a d n by simp [regras])
            (by unfold regra_17
                exact lt_min (lt_min hAB (ideal_ou_excesso_pos hd1 hdd)) hTH)
        · exact maxStrength_pos_of_rule
            (show (regra_18 a d n, Consequente.alto) ∈ regras a d n by simp [regras])
            (by unfold regra_18
                exact lt_min (lt_min hAB (deficit_leve_pos hdd hdlt)) hTH)
    · have hTH : 0 < calor_extremo a := calor_extremo_pos h11 ha2
      rcases lt_or_le d 100 with hdd | hdd
      · exact maxStrength_pos_of_rule
          (show (regra_22 a d n, Consequente.alto) ∈ regras a d n by simp [regras])
          (by unfold regra_22
              exact lt_min (lt_min hAB (ideal_ou_excesso_pos hd1 hdd)) hTH)
      · exact maxStrength_pos_of_rule
          (show (regra_24 a d n, Consequente.critico) ∈ regras a d n by simp [regras])
          (by unfold regra_24
              exact lt_min (lt_min hAB (deficit_leve_pos hdd hdlt)) hTH)

/-- Witness for C3 (amended) at the in-range input (0, 200, 0.1), where the
seca_severa catch-all rule fires. -/
theorem claim_c3_witness : 0 < maxStrength 0 200 (1/10) :=
  claim_c3 0 200 (1/10) (by norm_num) (by norm_num) (by norm_num) (by norm_num)
    (by norm_num) (by norm_num) (Or.inl (by norm_num))

theorem actB_c6 : actB 12 210 (-1/5) = 0 := by
  norm_num [actB, regra_2, regra_3, regra_6, regra_47, na_media_ou_acima, ideal_ou_excesso,
    deficit_leve, ideal, calor_moderado, trapmfQ, trimfQ]

theorem actM_c6 : actM 12 210 (-1/5) = 0 := by
  norm_num [actM, regra_1, regra_4, regra_5, regra_7, regra_10, regra_17, na_media_ou_acima,
    abaixo_media, ideal_ou_excesso, deficit_leve, deficit_moderado, ideal, frio_prejudicial,
    calor_moderado, calor_extremo, trapmfQ, trimfQ]

theorem actA_c6 : actA 12 210 (-1/5) = 4/5 := by
  norm_num [actA, regra_8, regra_9, regra_11, regra_13, regra_14, regra_18, regra_19,
    regra_21, regra_22, regra_23, regra_25, regra_26, regra_27, regra_28, regra_35, regra_39,
    regra_40, regra_44, regra_45, regra_46, na_media_ou_acima, abaixo_media,
    muito_abaixo_media, ideal_ou_excesso, deficit_leve, deficit_moderado, seca_severa, ideal,
    frio_prejudicial, calor_moderado, calor_extremo, trapmfQ, trimfQ]

theorem actC_c6 : actC 12 210 (-1/5) = 1/3 := by
  norm_num [actC, regra_12, regra_15, regra_16, regra_20, regra_24, regra_29, regra_30,
    regra_31, regra_32, regra_33, regra_34, regra_36, regra_37, regra_38, regra_41, regra_42,
    regra_43, na_media_ou_acima, abaixo_media, muito_abaixo_media, ideal_ou_excesso,
    deficit_leve, deficit_moderado, seca_severa, ideal, frio_prejudicial, calor_moderado,
    calor_extremo, trapmfQ, trimfQ]

theorem massOf_c6 : massOf 0 0 (4/5) (1/3) = 2036/105 := by
  unfold massOf
  simp only [Finset.sum_range_succ, Finset.sum_range_zero]
  norm_num [aggAt, rq_baixo, rq_moderado, rq_alto, rq_critico, trimfQ, trapmfQ]

theorem momentOf_c6 : momentOf 0 0 (4/5) (1/3) = 32594/21 := by
  unfold momentOf
  simp only [Finset.sum_range_succ, Finset.sum_range_zero]
  norm_num [aggAt, rq_baixo, rq_moderado, rq_alto, rq_critico, trimfQ, trapmfQ]

theorem simular_c6_val : simular 12 210 (-1/5) = Except.ok (81485/1018) := by
  have hmass : massOf (actB 12 210 (-1/5)) (actM 12 210 (-1/5)) (actA 12 210 (-1/5))
      (actC 12 210 (-1/5)) ≠ 0 := by
    rw [actB_c6, actM_c6, actA_c6, actC_c6, massOf_c6]
    norm_num
  rw [simular_ok (by norm_num) (by norm_num) (by norm_num) (by norm_num) (by norm_num)
    (by norm_num) hmass, actB_c6, actM_c6, actA_c6, actC_c6, massOf_c6, momentOf_c6]
  have hv : (32594/21 : ℚ) / (2036/105) = 81485/1018 := by norm_num
  rw [hv]

/-- C6: refuted — at the reference regression input (12, 210, -0.2) the
engine returns exactly 81485/1018, which is about 80.04 and strictly below
the score of 90 asserted by the repository test and the spec. -/
theorem claim_c6 :
    simular 12 210 (-1/5) = Except.ok (81485/1018) ∧ (81485/1018 : ℚ) < 90 :=
  ⟨simular_c6_val, by norm_num⟩

theorem actB_c7 : actB 15 300 (2/5) = 0 := by
  norm_num [actB, regra_2, regra_3, regra_6, regra_47, na_media_ou_acima, ideal_ou_excesso,
    deficit_leve, ideal, calor_moderado, trapmfQ, trimfQ]

theorem actM_c7 : actM 15 300 (2/5) = 0 := by
  norm_num [actM, regra_1, regra_4, regra_5, regra_7, regra_10, regra_17, na_media_ou_acima,
    abaixo_media, ideal_ou_excesso, deficit_leve, deficit_moderado, ideal, frio_prejudicial,
    calor_moderado, calor_extremo, trapmfQ, trimfQ]

theorem actA_c7 : actA 15 300 (2/5) = 1 := by
  norm_num [actA, regra_8, regra_9, regra_11, regra_13, regra_14, regra_18, regra_19,
    regra_21, regra_22, regra_23, regra_25, regra_26, regra_27, regra_28, regra_35, regra_39,
    regra_40, regra_44, regra_45, regra_46, na_media_ou_acima, abaixo_media,
    muito_abaixo_media, ideal_ou_excesso, deficit_leve, deficit_moderado, seca_severa, ideal,
    frio_prejudicial, calor_moderado, calor_extremo, trapmfQ, trimfQ]

theorem actC_c7 : actC 15 300 (2/5) = 1 := by
  norm_num [actC, regra_12, regra_15, regra_16, regra_20, regra_24, regra_29, regra_30,
    regra_31, regra_32, regra_33, regra_34, regra_36, regra_37, regra_38, regra_41, regra_42,
    regra_43, na_media_ou_acima, abaixo_media, muito_abaixo_media, ideal_ou_excesso,
    deficit_leve, deficit_moderado, seca_severa, ideal, frio_prejudicial, calor_moderado,
    calor_extremo, trapmfQ, trimfQ]

theorem massOf_c7 : massOf 0 0 1 1 = 831/35 := by
  unfold massOf
  simp only [Finset.sum_range_succ, Finset.sum_range_zero]
  norm_num [aggAt, rq_baixo, rq_moderado, rq_alto, rq_critico, trimfQ, trapmfQ]

theorem momentOf_c7 : momentOf 0 0 1 1 = 41221/21 := by
  unfold momentOf
  simp only [Finset.sum_range_succ, Finset.sum_range_zero]
  norm_num [aggAt, rq_baixo, rq_moderado, rq_alto, rq_critico, trimfQ, trapmfQ]

theorem simular_c7_val : simular 15 300 (2/5) = Except.ok (206105/2493) := by
  have hmass : massOf (actB 15 300 (2/5)) (actM 15 300 (2/5)) (actA 15 300 (2/5))
      (actC 15 300 (2/5)) ≠ 0 := by
    rw [actB_c7, actM_c7, actA_c7, actC_c7, massOf_c7]
    norm_num
  rw [simular_ok (by norm_num) (by norm_num) (by norm_num) (by norm_num) (by norm_num)
    (by norm_num) hmass, actB_c7, actM_c7, actA_c7, actC_c7, massOf_c7, momentOf_c7]
  have hv : (41221/21 : ℚ) / (831/35) = 206105/2493 := by norm_num
  rw [hv]

/-- C7 counterexample: at the extreme input (15, 300, 0.4) the engine
returns exactly 206105/2493, about 82.67, and categorize maps that score
to a label different from the claimed top label. -/
theorem claim_c7_counterexample :
    simular 15 300 (2/5) = Except.ok (206105/2493) ∧
    categorizar (206105/2493) ≠ "crítico" := by
  refine ⟨simular_c7_val, ?_⟩
  unfold categorizar
  rw [if_neg (by norm_num), if_neg (by norm_num), if_pos (by norm_num)]
  decide

/-- C7 (amended): at the extreme input (15, 300, 0.4) the engine returns
exactly 206105/2493 (about 82.67) and categorize classifies it alto, one
step below the claimed critico. -/
theorem claim_c7 :
    simular 15 300 (2/5) = Except.ok (206105/2493) ∧
    categorizar (206105/2493) = "alto" := by
  refine ⟨simular_c7_val, ?_⟩
  unfold categorizar
  rw [if_neg (by norm_num), if_neg (by norm_num), if_pos (by norm_num)]

end AgroRisk
